import Mathlib

/-!
Verification development for the FoW2026 course-content generator.

The Python sources under `src/` are shallowly embedded below:

* `src/utils/extract_params.py` — a small backtracking regular-expression
  engine (`RE`, `runRE`, `searchRE`) modelling CPython `re.search` /
  `re.sub` semantics (leftmost match, alternation in written order,
  greedy/lazy quantifier priorities), plus transcriptions of every
  pattern list, and `extract_course_parameters` itself.
* `src/agent/course_agent.py` and `src/agent/course_agent_langchain.py` —
  the lesson batch loop `generate_module_content` and the course builder
  `generate_complete_course`, with the generative-model API abstracted as
  oracles (a failed call is the empty batch, mirroring the `except`
  branches that return `[]`).
* `src/agent/content_generator.py` — the Markdown and HTML exporters.
* `src/agent/roadmap_agent.py` — `generate_roadmap_from_modules`,
  with `datetime.strptime`/`timedelta`/`strftime` modelled on the
  proleptic Gregorian calendar.
* `src/app_flask.py` — the module-level `course_storage` dictionary and
  the `/api/generate-course` and `/api/generate-roadmap` handlers.

Machine integers are modelled as `Nat`/`Int` (no arithmetic here ever
nears an overflow boundary in CPython, whose ints are unbounded), and
Python floats produced by `round(x, 1)` are modelled as exact rationals
with round-half-to-even.
-/

set_option maxRecDepth 100000

namespace FoW2026

/-! ## Character helpers (ASCII model of CPython `str` predicates) -/
/-- Python whitespace for `str.split`/`str.strip` and the regex class
`\s` (ASCII fragment: space, tab, newline, carriage return, vertical
tab, form feed). -/
def isPySpace (c : Char) : Bool :=
  c = ' ' || c = '\t' || c = '\n' || c = '\r' ||
  c = Char.ofNat 11 || c = Char.ofNat 12

/-- Regex class `\d` (ASCII fragment: the characters '0'..'9', code
points 48..57). -/
def isDigitB (c : Char) : Bool :=
  48 ≤ c.toNat && c.toNat ≤ 57

/-- ASCII letters. -/
def isAlphaB (c : Char) : Bool :=
  ('a' ≤ c && c ≤ 'z') || ('A' ≤ c && c ≤ 'Z')

/-- Regex word characters `\w` (ASCII fragment). -/
def isWordB (c : Char) : Bool :=
  isAlphaB c || isDigitB c || c = '_'

/-- Lower-case one character, as `str.lower` does on ASCII. -/
def pyLowerChar (c : Char) : Char :=
  if 'A' ≤ c && c ≤ 'Z' then Char.ofNat (c.toNat + 32) else c

/-- Upper-case one character, as `str.upper` does on ASCII. -/
def pyUpperChar (c : Char) : Char :=
  if 'a' ≤ c && c ≤ 'z' then Char.ofNat (c.toNat - 32) else c

/-- Model of Python `str.lower`. -/
def pyLower (s : String) : String :=
  ⟨s.data.map pyLowerChar⟩

/-- Model of Python `str.strip` (no argument: strip whitespace at both
ends), on character lists. -/
def pyStrip (l : List Char) : List Char :=
  ((l.dropWhile isPySpace).reverse.dropWhile isPySpace).reverse

/-- Model of Python `str.capitalize`: first character upper-cased, the
rest lower-cased. -/
def pyCapitalize (s : String) : String :=
  match s.data with
  | [] => ""
  | c :: rest => ⟨pyUpperChar c :: rest.map pyLowerChar⟩

/-- Helper for `pyTitle`: `atWordStart` is true when the previous
character was not a letter. -/
def pyTitleAux : Bool → List Char → List Char
  | _, [] => []
  | atWordStart, c :: rest =>
    if isAlphaB c then
      (if atWordStart then pyUpperChar c else pyLowerChar c) :: pyTitleAux false rest
    else
      c :: pyTitleAux true rest

/-- Model of Python `str.title` (ASCII): upper-case every letter that
follows a non-letter, lower-case the other letters. -/
def pyTitle (s : String) : String :=
  ⟨pyTitleAux true s.data⟩

/-- Helper for `pySplitWords`: `cur` is the current word, reversed. -/
def pySplitWordsAux (cur : List Char) : List Char → List String
  | [] => if cur.isEmpty then [] else [⟨cur.reverse⟩]
  | c :: rest =>
    if isPySpace c then
      if cur.isEmpty then pySplitWordsAux [] rest
      else ⟨cur.reverse⟩ :: pySplitWordsAux [] rest
    else pySplitWordsAux (c :: cur) rest

/-- Model of Python `str.split()` with no argument: the whitespace
separated words, empty pieces dropped. -/
def pySplitWords (s : String) : List String :=
  pySplitWordsAux [] s.data

/-- Value of a string of ASCII digits, as Python `int` reads it
(leading zeros allowed). -/
def digitsToNat (l : List Char) : Nat :=
  l.foldl (fun n c => n * 10 + (c.toNat - 48)) 0

/-! ## A backtracking regular-expression engine

Model of the fragment of CPython `re` used by
`src/utils/extract_params.py`: literals, classes, `(?:...)` sequencing,
alternation (tried in written order), greedy and lazy `*`/`+`/`?`, one
capturing group, `\b`, `^` and `$`.  `runRE` enumerates the engine's
match states in CPython's backtracking priority order, so the head of
the returned list is exactly the match `re.search` commits to. -/
inductive RE where
  /-- Empty pattern. -/
  | eps : RE
  /-- Literal character. -/
  | ch : Char → RE
  /-- Character class (predicate). -/
  | cls : (Char → Bool) → RE
  /-- Concatenation. -/
  | seq : RE → RE → RE
  /-- Alternation; the left alternative is preferred, as in CPython. -/
  | alt : RE → RE → RE
  /-- Kleene star; `greedy = true` prefers longer repetitions (`*`),
  `greedy = false` prefers shorter ones (`*?`). -/
  | star : Bool → RE → RE
  /-- Capturing group 1. -/
  | grp : RE → RE
  /-- Word boundary `\b`. -/
  | bound : RE
  /-- Start anchor `^`. -/
  | bos : RE
  /-- End anchor `$` (end of string, or just before a final newline). -/
  | eos : RE

/-- True when position `pos` of `s` is a `\b` word boundary. -/
def isWordBoundary (s : List Char) (pos : Nat) : Bool :=
  let isWordAt : Nat → Bool := fun i =>
    match s[i]? with
    | some c => isWordB c
    | none => false
  (if pos = 0 then false else isWordAt (pos - 1)) != isWordAt pos

/-- Repetition loop for `RE.star`: `body` matches one occurrence of the
starred sub-pattern, `fuel` bounds the number of repetitions.  Greedy
stars put longer repetitions first, lazy stars put the empty repetition
first, matching CPython's backtracking priorities; a repetition that
does not advance the position is cut, as CPython cuts empty repeats. -/
def starLoop (body : Nat → Option (Nat × Nat) → List (Nat × Option (Nat × Nat)))
    (g : Bool) : Nat → Nat → Option (Nat × Nat) → List (Nat × Option (Nat × Nat))
  | 0, pos, cap => [(pos, cap)]
  | fuel + 1, pos, cap =>
    let deeper :=
      (body pos cap).flatMap
        (fun pc => if pc.1 ≤ pos then [] else starLoop body g fuel pc.1 pc.2)
    if g then deeper ++ [(pos, cap)] else (pos, cap) :: deeper

/-- All engine states `(end position, group-1 span)` reachable by
matching `re` at position `pos` of `s`, in backtracking priority order.
`fuel` bounds star unrolling; every starred sub-pattern transcribed
below consumes at least one character per repetition, so
`s.length + 1` fuel is never exhausted. -/
def runRE (s : List Char) (fuel : Nat) : RE → Nat → Option (Nat × Nat) →
    List (Nat × Option (Nat × Nat))
  | .eps, pos, cap => [(pos, cap)]
  | .ch c, pos, cap =>
    match s[pos]? with
    | some c' => if c' = c then [(pos + 1, cap)] else []
    | none => []
  | .cls f, pos, cap =>
    match s[pos]? with
    | some c' => if f c' then [(pos + 1, cap)] else []
    | none => []
  | .seq a b, pos, cap =>
    (runRE s fuel a pos cap).flatMap (fun pc => runRE s fuel b pc.1 pc.2)
  | .alt a b, pos, cap => runRE s fuel a pos cap ++ runRE s fuel b pos cap
  | .grp a, pos, cap =>
    (runRE s fuel a pos cap).map (fun pc => (pc.1, some (pos, pc.1)))
  | .star g a, pos, cap =>
    starLoop (fun p c => runRE s fuel a p c) g fuel pos cap
  | .bound, pos, cap => if isWordBoundary s pos then [(pos, cap)] else []
  | .bos, pos, cap => if pos = 0 then [(pos, cap)] else []
  | .eos, pos, cap =>
    if pos = s.length || (pos + 1 = s.length && s[pos]? = some '\n') then
      [(pos, cap)]
    else []

/-- First value of `f` along `l` (the Python pattern-loop shape:
try candidates in order, commit to the first acceptable one). -/
def firstSome (l : List α) (f : α → Option β) : Option β :=
  match l with
  | [] => none
  | x :: xs =>
    match f x with
    | some b => some b
    | none => firstSome xs f

/-- Model of `re.search`: the leftmost position with a match, and there
the engine's preferred match.  Returns `(start, end, group-1 span)`. -/
def searchRE (re : RE) (s : List Char) : Option (Nat × Nat × Option (Nat × Nat)) :=
  firstSome (List.range (s.length + 1)) fun i =>
    match runRE s (s.length + 1) re i none with
    | [] => none
    | (e, cap) :: _ => some (i, e, cap)

/-- Text of capturing group 1 of the committed match (`match.group(1)`);
`none` when the pattern does not match.  Every transcribed pattern has
its group in a mandatory position, so a match always carries a span. -/
def research (re : RE) (s : List Char) : Option (List Char) :=
  match searchRE re s with
  | none => none
  | some (_, _, none) => none
  | some (_, _, some (b, e)) => some ((s.drop b).take (e - b))

/-- Whether `re.search` finds any match. -/
def hasMatchB (re : RE) (s : List Char) : Bool :=
  (searchRE re s).isSome

/-- Model of `re.sub(pattern, '', s)` for the cleanup patterns of
`extract_params.py`, each of which is anchored (`^` or `$`) and so can
be replaced at most once: delete the committed match, if any. -/
def subOnce (re : RE) (s : List Char) : List Char :=
  match searchRE re s with
  | none => s
  | some (b, e, _) => s.take b ++ s.drop e

/-! ### Pattern combinators used to transcribe the source regexes -/
/-- Sequence a pattern list. -/
def rcat (l : List RE) : RE :=
  match l with
  | [] => .eps
  | [x] => x
  | x :: xs => .seq x (rcat xs)

/-- Alternation over a pattern list, preferred in list order. -/
def ralt (l : List RE) : RE :=
  match l with
  | [] => .eps
  | [x] => x
  | x :: xs => .alt x (ralt xs)

/-- Literal string. -/
def lit (s : String) : RE :=
  rcat (s.data.map .ch)

/-- Alternation of literal strings, e.g. `(?:on|about|regarding)`. -/
def alts (l : List String) : RE :=
  ralt (l.map lit)

/-- Regex `\s`. -/
def sp : RE := .cls isPySpace

/-- Regex `\s+` (greedy). -/
def sp1 : RE := .seq sp (.star true sp)

/-- Regex `\s*` (greedy). -/
def sp0 : RE := .star true sp

/-- Regex `\d+` (greedy). -/
def digits1 : RE := .seq (.cls isDigitB) (.star true (.cls isDigitB))

/-- Greedy `(...)?`: presence preferred, as in CPython. -/
def qmark (a : RE) : RE := .alt a .eps

/-- Lazy `(...)+?`: one occurrence, then as few more as possible. -/
def lazyPlus (a : RE) : RE := .seq a (.star false a)

/-- Greedy `(...)+`. -/
def greedyPlus (a : RE) : RE := .seq a (.star true a)

/-- Negated class `[^...]`. -/
def notClass (l : List Char) : RE :=
  .cls (fun c => !l.contains c)

/-- Regex `[^\s]`. -/
def nonSpace : RE := .cls (fun c => !isPySpace c)

/-- Regex `.` (any character but newline). -/
def dotAny : RE := .cls (fun c => c ≠ '\n')

/-- One character out of an explicit set, e.g. `[:\-]` or `[,.\n]`. -/
def oneOf (l : List Char) : RE :=
  .cls (fun c => l.contains c)

/-- Pattern `\b<keyword>\b` built by the difficulty scan
(`re.escape` makes every keyword character literal). -/
def wordRE (kw : String) : RE :=
  rcat [.bound, lit kw, .bound]

/-! ## Pattern transcriptions from `src/utils/extract_params.py`

The patterns run against `prompt.lower()`; every literal below is
lower-case, so the source's `re.IGNORECASE` flag has no further effect
and is dropped. -/
/-- Common topic-pattern tail
`(?:\s+(?:w1|w2|...)|[,.\n]|$)` with stop words `ws`. -/
def stopTail (ws : List String) : RE :=
  ralt [rcat [sp1, alts ws], oneOf [',', '.', '\n'], .eos]

/-- The lazily captured `([^\n,.;]+?)` of the topic/audience patterns. -/
def capNoPunct : RE :=
  .grp (lazyPlus (notClass ['\n', ',', '.', ';']))

/-- The `topic_patterns` list (source lines 29-48), in order. -/
def topic_patterns : List RE :=
  [ -- r'(?:create|generate|build|make|design|develop)\s+(?:a\s+)?
    --   ([^\s]+(?:\s+[^\s]+)*?)\s+(?:course|class|training|program|curriculum)\s+for'
    rcat [alts ["create", "generate", "build", "make", "design", "develop"],
          sp1, qmark (rcat [lit "a", sp1]),
          .grp (rcat [greedyPlus nonSpace,
                      .star false (rcat [sp1, greedyPlus nonSpace])]),
          sp1, alts ["course", "class", "training", "program", "curriculum"],
          sp1, lit "for"],
    -- r'(?:course|class|training|program|curriculum)\s+(?:on|about|regarding|covering)\s+
    --   ([^\n,.;]+?)(?:\s+(?:for|over|duration|difficulty|that|which|with|lasting|taking)|[,.\n]|$)'
    rcat [alts ["course", "class", "training", "program", "curriculum"],
          sp1, alts ["on", "about", "regarding", "covering"], sp1, capNoPunct,
          stopTail ["for", "over", "duration", "difficulty", "that", "which",
                    "with", "lasting", "taking"]],
    -- r'(?:teach|learn|study|master|understand)\s+(?:about\s+)?
    --   ([^\n,.;]+?)(?:\s+(?:for|to|over|duration|in|within)|[,.\n]|$)'
    rcat [alts ["teach", "learn", "study", "master", "understand"],
          sp1, qmark (rcat [lit "about", sp1]), capNoPunct,
          stopTail ["for", "to", "over", "duration", "in", "within"]],
    -- r'(?:create|generate|build|make|design|develop)\s+(?:a\s+)?
    --   (?:course|class|training|program)\s+(?:on|about|regarding|in)\s+
    --   ([^\n,.;]+?)(?:\s+(?:for|over|duration)|[,.\n]|$)'
    rcat [alts ["create", "generate", "build", "make", "design", "develop"],
          sp1, qmark (rcat [lit "a", sp1]),
          alts ["course", "class", "training", "program"],
          sp1, alts ["on", "about", "regarding", "in"], sp1, capNoPunct,
          stopTail ["for", "over", "duration"]],
    -- r'topic\s*[:\-]\s*([^\n,.;]+?)(?:\s+(?:for|over|duration)|[,.\n]|$)'
    rcat [lit "topic", sp0, oneOf [':', '-'], sp0, capNoPunct,
          stopTail ["for", "over", "duration"]],
    -- r'subject\s*[:\-]\s*([^\n,.;]+?)(?:\s+(?:for|over|duration)|[,.\n]|$)'
    rcat [lit "subject", sp0, oneOf [':', '-'], sp0, capNoPunct,
          stopTail ["for", "over", "duration"]],
    -- r'(?:i\s+)?(?:want|need|would like)\s+(?:to\s+)?(?:learn|study|create|take)\s+
    --   (?:a\s+)?(?:course\s+(?:on|in)\s+)?([^\n,.;]+?)(?:\s+(?:for|course|training)|[,.\n]|$)'
    rcat [qmark (rcat [lit "i", sp1]), alts ["want", "need", "would like"],
          sp1, qmark (rcat [lit "to", sp1]),
          alts ["learn", "study", "create", "take"],
          sp1, qmark (rcat [lit "a", sp1]),
          qmark (rcat [lit "course", sp1, alts ["on", "in"], sp1]),
          capNoPunct, stopTail ["for", "course", "training"]] ]

/-- Topic cleanup `re.sub(r'^(?:a|an|the)\s+', '', topic)` (line 55). -/
def cuArticle : RE :=
  rcat [.bos, alts ["a", "an", "the"], sp1]

/-- Topic cleanup `re.sub(r'\s+(?:course|class|training|program)$', '', topic)`
(line 56). -/
def cuTrailKeyword : RE :=
  rcat [sp1, alts ["course", "class", "training", "program"], .eos]

/-- Topic cleanup `re.sub(r'\s+(?:for|to|with)\s+.*$', '', topic)` (line 58). -/
def cuTrailAudience : RE :=
  rcat [sp1, alts ["for", "to", "with"], sp1, .star true dotAny, .eos]

/-- Audience cleanup `re.sub(r'^(?:the\s+)?', '', audience)` (line 113). -/
def cuLeadingThe : RE :=
  rcat [.bos, qmark (rcat [lit "the", sp1])]

/-- The `duration_patterns` list (source lines 64-70), in order. -/
def duration_patterns : List RE :=
  [ -- r'(\d+)\s*(?:-|to)?\s*weeks?(?:\s+long)?'
    rcat [.grp digits1, sp0, qmark (alts ["-", "to"]), sp0, lit "week",
          qmark (.ch 's'), qmark (rcat [sp1, lit "long"])],
    -- r'(?:duration|lasting|takes?|span(?:ning)?|over|in)\s*[:\-]?\s*(\d+)\s*weeks?'
    rcat [ralt [lit "duration", lit "lasting",
                rcat [lit "take", qmark (.ch 's')],
                rcat [lit "span", qmark (lit "ning")], lit "over", lit "in"],
          sp0, qmark (oneOf [':', '-']), sp0, .grp digits1, sp0, lit "week",
          qmark (.ch 's')],
    -- r'(?:for|across|throughout)\s+(\d+)\s*weeks?'
    rcat [alts ["for", "across", "throughout"], sp1, .grp digits1, sp0,
          lit "week", qmark (.ch 's')],
    -- r'(\d+)\s*week\s+(?:course|program|class)'
    rcat [.grp digits1, sp0, lit "week", sp1, alts ["course", "program", "class"]],
    -- r'(?:weekly|week by week)\s+(?:for\s+)?(\d+)\s+weeks?'
    rcat [alts ["weekly", "week by week"], sp1, qmark (rcat [lit "for", sp1]),
          .grp digits1, sp1, lit "week", qmark (.ch 's')] ]

/-- The `difficulty_mappings` dictionary (source lines 81-85), in
insertion order, keywords in list order. -/
def difficulty_mappings : List (String × List String) :=
  [ ("beginner",
     ["beginner", "beginners", "basic", "introductory", "intro", "fundamental",
      "elementary", "starter", "novice", "entry level", "entry-level", "starting"]),
    ("intermediate",
     ["intermediate", "mid level", "mid-level", "moderate", "standard",
      "regular", "average"]),
    ("advanced",
     ["advanced", "expert", "professional", "senior", "high level", "high-level",
      "complex", "sophisticated", "in-depth", "in depth", "deep dive"]) ]

/-- Optional plural: `word` followed by `s?`. -/
def plural (w : String) : RE :=
  rcat [lit w, qmark (.ch 's')]

/-- The `audience_patterns` list (source lines 96-106), in order. -/
def audience_patterns : List RE :=
  [ -- r'(?:for|aimed at|targeting|designed for|intended for)\s+
    --   ([^\n,.;]+?)(?:\s+(?:who|that|with|wanting|interested|looking)|[,.\n]|$)'
    rcat [alts ["for", "aimed at", "targeting", "designed for", "intended for"],
          sp1, capNoPunct,
          stopTail ["who", "that", "with", "wanting", "interested", "looking"]],
    -- r'(?:target|target audience|audience)\s*[:\-]\s*([^\n,.;]+?)(?:[,.\n]|$)'
    rcat [alts ["target", "target audience", "audience"], sp0, oneOf [':', '-'],
          sp0, capNoPunct, ralt [oneOf [',', '.', '\n'], .eos]],
    -- r'\b((?:college|...|nursing)\s+students?)\b'
    rcat [.bound,
          .grp (rcat [alts ["college", "university", "high school", "graduate",
                            "undergraduate", "phd", "doctoral", "medical",
                            "engineering", "business", "law", "nursing"],
                      sp1, plural "student"]),
          .bound],
    -- r'\b((?:software|...|fullstack)\s+(?:developers?|engineers?|programmers?))\b'
    rcat [.bound,
          .grp (rcat [alts ["software", "web", "data", "machine learning", "ai",
                            "cloud", "mobile", "frontend", "backend",
                            "full stack", "fullstack"],
                      sp1, ralt [plural "developer", plural "engineer",
                                 plural "programmer"]]),
          .bound],
    -- r'\b((?:aspiring|junior|senior|lead|staff|principal)\s+
    --      (?:developers?|engineers?|programmers?|professionals?))\b'
    rcat [.bound,
          .grp (rcat [alts ["aspiring", "junior", "senior", "lead", "staff",
                            "principal"],
                      sp1, ralt [plural "developer", plural "engineer",
                                 plural "programmer", plural "professional"]]),
          .bound],
    -- r'\b((?:beginners?|novices?|experts?|professionals?|practitioners?|
    --      enthusiasts?|hobbyists?))\b'
    rcat [.bound,
          .grp (ralt [plural "beginner", plural "novice", plural "expert",
                      plural "professional", plural "practitioner",
                      plural "enthusiast", plural "hobbyist"]),
          .bound],
    -- r'\b((?:managers?|leaders?|executives?|analysts?|consultants?|
    --      researchers?|scientists?))\b'
    rcat [.bound,
          .grp (ralt [plural "manager", plural "leader", plural "executive",
                      plural "analyst", plural "consultant", plural "researcher",
                      plural "scientist"]),
          .bound] ]

/-- The `lessons_patterns` list (source lines 119-124), in order. -/
def lessons_patterns : List RE :=
  [ -- r'(\d+)\s*lessons?\s+(?:per|in\s+each|for\s+each)\s+module'
    rcat [.grp digits1, sp0, plural "lesson", sp1,
          ralt [lit "per", rcat [lit "in", sp1, lit "each"],
                rcat [lit "for", sp1, lit "each"]],
          sp1, lit "module"],
    -- r'(?:lessons per module|module lessons)\s*[:\-]?\s*(\d+)'
    rcat [alts ["lessons per module", "module lessons"], sp0,
          qmark (oneOf [':', '-']), sp0, .grp digits1],
    -- r'each\s+module\s+(?:has|contains|includes)\s+(\d+)\s*lessons?'
    rcat [lit "each", sp1, lit "module", sp1, alts ["has", "contains", "includes"],
          sp1, .grp digits1, sp0, plural "lesson"],
    -- r'(\d+)\s*lessons?\s+(?:in|per)\s+(?:each|every)\s+module'
    rcat [.grp digits1, sp0, plural "lesson", sp1, alts ["in", "per"], sp1,
          alts ["each", "every"], sp1, lit "module"] ]

/-! ## `extract_course_parameters` (source lines 12-151) -/
/-- The returned `params` dictionary: every value is optional in the
dictionary, though after the defaults block only `topic` can still be
`None`. -/
structure ExtractedParams where
  topic : Option String
  duration_weeks : Option Nat
  difficulty : Option String
  target_audience : Option String
  lessons_per_module : Option Nat
deriving DecidableEq, Repr

/-- One step of the topic loop (lines 50-61): group 1 of the pattern,
stripped, the three cleanups applied, accepted only when longer than 3
characters (otherwise the loop moves to the next pattern). -/
def topicStep (pl : List Char) (pat : RE) : Option String :=
  match research pat pl with
  | none => none
  | some cap =>
    let t := pyStrip cap
    let t := subOnce cuArticle t
    let t := subOnce cuTrailKeyword t
    let t := subOnce cuTrailAudience t
    if t.length > 3 then some ⟨t⟩ else none

/-- One step of the duration loop (lines 72-78): the captured integer,
accepted only within the 1..52 sanity range. -/
def durationStep (pl : List Char) (pat : RE) : Option Nat :=
  match research pat pl with
  | none => none
  | some cap =>
    let weeks := digitsToNat cap
    if 1 ≤ weeks ∧ weeks ≤ 52 then some weeks else none

/-- One step of the difficulty loop (lines 87-93): a level is taken when
any of its keywords matches as a whole word. -/
def difficultyStep (pl : List Char) (entry : String × List String) : Option String :=
  if entry.2.any (fun kw => hasMatchB (wordRE kw) pl) then some entry.1 else none

/-- One step of the audience loop (lines 108-116): group 1, stripped,
leading `the` removed, accepted only when longer than 3 characters. -/
def audienceStep (pl : List Char) (pat : RE) : Option String :=
  match research pat pl with
  | none => none
  | some cap =>
    let a := pyStrip cap
    let a := subOnce cuLeadingThe a
    if a.length > 3 then some ⟨a⟩ else none

/-- One step of the lessons loop (lines 126-132): the captured integer,
accepted only within the 1..20 sanity range. -/
def lessonsStep (pl : List Char) (pat : RE) : Option Nat :=
  match research pat pl with
  | none => none
  | some cap =>
    let lessons := digitsToNat cap
    if 1 ≤ lessons ∧ lessons ≤ 20 then some lessons else none

/-- Model of `extract_course_parameters(prompt)`: per-field pattern
loops over `prompt.lower()`, then the defaults block (lines 134-145),
then the required-field check (lines 147-149; `if not params['topic']`
is Python truthiness, so `None` or the empty string both count as
missing — the empty string cannot actually arise past the `> 3` length
guard). -/
def extract_course_parameters (prompt : String) : ExtractedParams × List String :=
  let pl := (pyLower prompt).data
  let topic := firstSome topic_patterns (topicStep pl)
  let params : ExtractedParams :=
    { topic := topic
      duration_weeks := some ((firstSome duration_patterns (durationStep pl)).getD 4)
      difficulty := some ((firstSome difficulty_mappings (difficultyStep pl)).getD "beginner")
      target_audience := some ((firstSome audience_patterns (audienceStep pl)).getD "general learners")
      lessons_per_module := some ((firstSome lessons_patterns (lessonsStep pl)).getD 4) }
  let missing : List String :=
    match topic with
    | none => ["Course Topic"]
    | some t => if t = "" then ["Course Topic"] else []
  (params, missing)

/-! ## Data model of `src/agent/course_agent.py` (and its LangChain twin)

The model responses are already-decoded JSON; a lesson dictionary is
modelled as a total record (the `dict.get(key, default)` accesses in the
source only matter for keys the model omitted, which totality elides). -/
/-- An `assessment_questions` entry (`{"question": ..., "answer": ...}`). -/
structure QA where
  question : String
  answer : String
deriving DecidableEq, Repr

/-- A lesson dictionary / `Lesson` record. -/
structure LessonD where
  title : String
  duration_minutes : Int
  learning_objectives : List String
  content : String
  key_points : List String
  activities : List String
  assessment_questions : List QA
deriving DecidableEq, Repr

/-- A `Module` record; `duration_hours` is the rational model of the
Python float produced by `round(minutes / 60, 1)`. -/
structure ModuleD where
  title : String
  description : String
  duration_hours : ℚ
  lessons : List LessonD
deriving DecidableEq, Repr

/-- A `CourseContent` record. -/
structure CourseContentD where
  title : String
  description : String
  target_audience : String
  difficulty_level : String
  duration_weeks : Nat
  prerequisites : List String
  learning_outcomes : List String
  modules : List ModuleD
deriving DecidableEq, Repr

/-- An outline module stub (`{"title": ..., "description": ...}`). -/
structure OutlineModule where
  title : String
  description : String
deriving DecidableEq, Repr

/-- A decoded course outline. -/
structure Outline where
  title : String
  description : String
  prerequisites : List String
  learning_outcomes : List String
  modules : List OutlineModule
deriving DecidableEq, Repr

/-- The fallback lesson appended for each slot of a failed batch
(`course_agent.py` lines 207-217); its title is
`f"Lesson {len(all_lessons)+1}"`, every other field is fixed. -/
def placeholderLesson (k : Nat) : LessonD :=
  { title := "Lesson " ++ toString k
    duration_minutes := 45
    learning_objectives := ["To be developed"]
    content := "Content to be developed."
    key_points := ["To be developed"]
    activities := ["Activity to be developed"]
    assessment_questions := [⟨"To be developed", "To be developed"⟩] }

/-- The placeholder lessons appended for a failed batch of size `k`
when `start` lessons have been accumulated so far. -/
def placeholderBlock (start k : Nat) : List LessonD :=
  (List.range k).map (fun i => placeholderLesson (start + i + 1))

namespace CourseContentAgent

/-- The `while remaining > 0` loop of `generate_module_content`
(`course_agent.py` lines 195-222).  `oracle b` is the decoded JSON list
returned by `_generate_lessons_batch` for batch number `b`; a batch
whose API call or JSON decode raised returns `[]` (lines 177-179).
`batch_size = min(2, remaining)` and the decrement
`remaining -= batch_size` are unrolled into the two possible cases
(`remaining = 1` and `remaining ≥ 2`) to keep the recursion
structural. -/
def gmcLoop (oracle : Nat → List LessonD) :
    Nat → Nat → List LessonD → List LessonD
  | 0, _, acc => acc
  | 1, batchNum, acc =>
    let lessons := oracle batchNum
    if lessons.isEmpty then acc ++ placeholderBlock acc.length 1
    else acc ++ lessons
  | remaining + 2, batchNum, acc =>
    let lessons := oracle batchNum
    let acc' :=
      if lessons.isEmpty then acc ++ placeholderBlock acc.length 2
      else acc ++ lessons
    gmcLoop oracle remaining (batchNum + 1) acc'

/-- Model of `generate_module_content(...)`: batches of at most 2
lessons, starting at batch number 1 with an empty accumulator. -/
def generate_module_content (oracle : Nat → List LessonD)
    (num_lessons : Nat) : List LessonD :=
  gmcLoop oracle num_lessons 1 []

end CourseContentAgent

namespace CourseContentAgentLangChain

/-- The LangChain agent's `generate_module_content`
(`course_agent_langchain.py` lines 313-353) has the very same loop body
as the direct agent's (placeholders included), so it is embedded as the
same function; its `_generate_lessons_batch` also returns a list per
batch (`[]` on failure, a singleton wrap for a non-list decode). -/
def generate_module_content : (Nat → List LessonD) → Nat → List LessonD :=
  CourseContentAgent.generate_module_content

end CourseContentAgentLangChain

/-! ## Claims C1 and C6 about the batch loop -/
/-- C1 counterexample oracle: the first batch call succeeds but decodes
to three lessons although only two were requested. -/
def oversupplyOracle : Nat → List LessonD :=
  fun b =>
    if b = 1 then [placeholderLesson 1, placeholderLesson 2, placeholderLesson 3]
    else []

/-! ## `generate_complete_course` (both agent files) -/
/-- Model of Python `round(x, 1)` on exact rationals: round to the
nearest tenth, ties to the even tenth (CPython's round-half-even; the
float representation detour can move an exact tie by less than one
ulp, which the exact model ignores). -/
def roundHalfEven (x : ℚ) : ℤ :=
  if x - ⌊x⌋ < 1 / 2 then ⌊x⌋
  else if 1 / 2 < x - ⌊x⌋ then ⌊x⌋ + 1
  else if ⌊x⌋ % 2 = 0 then ⌊x⌋ else ⌊x⌋ + 1

/-- Python `round(x, 1)`. -/
def pyRound1 (x : ℚ) : ℚ :=
  (roundHalfEven (10 * x) : ℚ) / 10

/-- Total minutes `sum(lesson.duration_minutes for lesson in lessons)`. -/
def sumMinutes (lessons : List LessonD) : ℤ :=
  (lessons.map (fun L => L.duration_minutes)).sum

/-- Boolean prefix test on character lists (needle first). -/
def startsWithB : List Char → List Char → Bool
  | [], _ => true
  | _ :: _, [] => false
  | a :: as, b :: bs => a = b && startsWithB as bs

/-- Model of Python `needle in hay` substring containment. -/
def containsSubB (hay needle : List Char) : Bool :=
  match hay with
  | [] => needle.isEmpty
  | _ :: t => startsWithB needle hay || containsSubB t needle

/-- The topic heuristic of `generate_complete_course` (both agents,
`course_agent.py` lines 264-266): some whitespace-separated word of
`topic.lower()` longer than 3 characters occurs in the generated
title, lower-cased. -/
def topicMatchB (topic generated_title : String) : Bool :=
  (pySplitWords (pyLower topic)).any
    (fun kw => decide (kw.length > 3) && containsSubB (pyLower generated_title).data kw.data)

/-- Per-module body of the `for idx, module_info in enumerate(modules)`
loop (`course_agent.py` lines 308-342): generate the lessons, convert
them (the `.get` defaults are elided by totality), and derive
`duration_hours = round(total_minutes / 60, 1)`. -/
def mkModule (om : OutlineModule) (oracle : Nat → List LessonD)
    (lessons_per_module : Nat) : ModuleD :=
  let lessons := CourseContentAgent.generate_module_content oracle lessons_per_module
  { title := om.title
    description := om.description
    duration_hours := pyRound1 ((sumMinutes lessons : ℚ) / 60)
    lessons := lessons }

/-- Map with the running index, as `enumerate` provides it. -/
def mapIdxFn (f : Nat → α → β) : Nat → List α → List β
  | _, [] => []
  | i, x :: xs => f i x :: mapIdxFn f (i + 1) xs

/-- Assembly of the `course_data` dictionary into a `CourseContent`
record (identical in both agent files: `course_agent.py` lines 291-344,
`course_agent_langchain.py` lines 399-453); the `learning_outcomes`
value differs between the two call sites and is passed in. -/
def assembleCourse (outline : Outline) (learning_outcomes : List String)
    (lessonOracle : Nat → Nat → List LessonD) (duration_weeks : Nat)
    (difficulty target_audience : String) (lessons_per_module : Nat) :
    CourseContentD :=
  { title := outline.title
    description := outline.description
    target_audience := target_audience
    difficulty_level := difficulty
    duration_weeks := duration_weeks
    prerequisites := outline.prerequisites
    learning_outcomes := learning_outcomes
    modules := mapIdxFn
      (fun idx om => mkModule om (lessonOracle idx) lessons_per_module)
      0 outline.modules }

namespace CourseContentAgent

/-- The outline actually used by `generate_complete_course`
(`course_agent.py` lines 263-289): the first decoded outline when its
title matches the topic heuristic, otherwise the outline decoded from
the one stricter re-request (`outline2`). -/
def chosenOutline (outline1 outline2 : Outline) (topic : String) : Outline :=
  if topicMatchB topic outline1.title then outline1 else outline2

/-- Number of outline-generation model calls `generate_complete_course`
makes: one for the initial outline, plus one more exactly when the
topic heuristic rejects the first title (lines 261 and 268-289). -/
def outlineRequestCount (outline1 : Outline) (topic : String) : Nat :=
  if topicMatchB topic outline1.title then 1 else 2

/-- Model of `generate_complete_course` (`course_agent.py` lines
243-344).  `outline1` is the decoded first outline, `outline2` the one
decoded from the stricter retry prompt (used only on a topic-heuristic
miss); `lessonOracle idx` feeds module `idx`'s batch calls.  An outline
with no modules raises `ValueError` (line 305), modelled as `.error`. -/
def generate_complete_course (outline1 outline2 : Outline)
    (lessonOracle : Nat → Nat → List LessonD) (topic : String)
    (duration_weeks : Nat) (difficulty target_audience : String)
    (lessons_per_module : Nat) : Except String CourseContentD :=
  if (chosenOutline outline1 outline2 topic).modules.isEmpty then
    .error "No modules were generated in the course outline. Please try again."
  else
    .ok (assembleCourse (chosenOutline outline1 outline2 topic)
          (chosenOutline outline1 outline2 topic).learning_outcomes
          lessonOracle duration_weeks difficulty target_audience
          lessons_per_module)

end CourseContentAgent

namespace CourseContentAgentLangChain

/-- The outline used by the LangChain `generate_complete_course`
(`course_agent_langchain.py` lines 387-397): on a topic-heuristic miss
the first outline is kept but its title is overwritten with
`f"{topic} - {difficulty.capitalize()} Course"`; no second model call
is made. -/
def chosenOutline (outline1 : Outline) (topic difficulty : String) : Outline :=
  if topicMatchB topic outline1.title then outline1
  else { outline1 with
         title := topic ++ " - " ++ pyCapitalize difficulty ++ " Course" }

/-- Number of outline-generation model calls the LangChain
`generate_complete_course` makes: always exactly one (line 382; the
mismatch branch only rewrites the title). -/
def outlineRequestCount (_outline1 : Outline) (_topic : String) : Nat := 1

/-- Model of the LangChain `generate_complete_course`
(`course_agent_langchain.py` lines 355-453).  A non-empty
`custom_learning_outcomes` list replaces the outline's outcomes (the
source's Python-truthiness test, line 406); `detailed_topics` only
changes prompt text and is elided with the model calls. -/
def generate_complete_course (outline1 : Outline)
    (lessonOracle : Nat → Nat → List LessonD) (topic : String)
    (duration_weeks : Nat) (difficulty target_audience : String)
    (lessons_per_module : Nat)
    (custom_learning_outcomes : Option (List String)) :
    Except String CourseContentD :=
  if (chosenOutline outline1 topic difficulty).modules.isEmpty then
    .error "No modules were generated in the course outline. Please try again."
  else
    .ok (assembleCourse (chosenOutline outline1 topic difficulty)
          (match custom_learning_outcomes with
           | some (x :: xs) => x :: xs
           | _ => (chosenOutline outline1 topic difficulty).learning_outcomes)
          lessonOracle duration_weeks difficulty target_audience
          lessons_per_module)

end CourseContentAgentLangChain

/-! ## String-building model of `src/agent/content_generator.py`

Python f-strings and `str.join` are modelled with explicit
concatenation of a piece list (`strJoin`) and a separator-join over a
mapped list (`joinSepMapNum`, whose index argument models `enumerate`'s
counter where the source uses it). -/
/-- Concatenation of the pieces of an f-string. -/
def strJoin : List String → String
  | [] => ""
  | x :: xs => x ++ strJoin xs

/-- Model of `sep.join(f(i, x) for i, x in enumerate(l, i0))`. -/
def joinSepMapNum (i0 : Nat) (sep : String) (f : Nat → α → String) :
    List α → String
  | [] => ""
  | [x] => f i0 x
  | x :: y :: xs => f i0 x ++ sep ++ joinSepMapNum (i0 + 1) sep f (y :: xs)

/-- Model of Python `str()` on the one-decimal floats produced by
`round(x, 1)` (always rendered with exactly one digit after the point,
e.g. `3.0`, `0.8`); `q` is assumed to be a multiple of 1/10, which the
only caller guarantees. -/
def showTenths (q : ℚ) : String :=
  (if q < 0 then "-" else "") ++
    toString (Int.natAbs ⌊q * 10⌋ / 10) ++ "." ++
    toString (Int.natAbs ⌊q * 10⌋ % 10)

/-- Substring containment, the property the export round-trip claim is
about (`sub in big` in Python). -/
def strContains (big sub : String) : Prop :=
  ∃ pre post, big.data = pre ++ sub.data ++ post

/-! ### `generate_markdown_course` (source lines 8-75) -/
/-- The course-level header of the Markdown export (lines 18-40). -/
def mdHeader (c : CourseContentD) : String :=
  strJoin ["# ", c.title, "\n\n## Course Overview\n\n**Description:** ",
    c.description, "\n\n**Target Audience:** ", c.target_audience,
    "\n\n**Difficulty Level:** ", c.difficulty_level,
    "\n\n**Duration:** ", toString c.duration_weeks,
    " weeks\n\n### Prerequisites\n",
    joinSepMapNum 1 "\n" (fun _ p => "- " ++ p) c.prerequisites,
    "\n\n### Learning Outcomes\n",
    joinSepMapNum 1 "\n" (fun _ o => "- " ++ o) c.learning_outcomes,
    "\n\n---\n\n## Course Content\n\n"]

/-- One lesson's Markdown block (lines 52-73). -/
def mdLesson (mi li : Nat) (L : LessonD) : String :=
  strJoin ["#### Lesson ", toString mi, ".", toString li, ": ", L.title,
    "\n\n**Duration:** ", toString L.duration_minutes,
    " minutes\n\n##### Learning Objectives\n",
    joinSepMapNum 1 "\n" (fun _ o => "- " ++ o) L.learning_objectives,
    "\n\n##### Content\n", L.content, "\n\n##### Key Points\n",
    joinSepMapNum 1 "\n" (fun _ p => "- " ++ p) L.key_points,
    "\n\n##### Activities\n",
    joinSepMapNum 1 "\n" (fun i a => toString i ++ ". " ++ a) L.activities,
    "\n\n##### Assessment\n",
    joinSepMapNum 1 "\n"
      (fun i q => toString i ++ ". **Q:** " ++ q.question ++
        "\n   **A:** " ++ q.answer)
      L.assessment_questions,
    "\n\n---\n\n"]

/-- One module's Markdown block including its lessons (lines 42-73). -/
def mdModule (mi : Nat) (m : ModuleD) : String :=
  strJoin ["### Module ", toString mi, ": ", m.title,
    "\n\n**Description:** ", m.description,
    "\n\n**Duration:** ", showTenths m.duration_hours, " hours\n\n",
    joinSepMapNum 1 "" (fun li L => mdLesson mi li L) m.lessons]

/-- Model of `generate_markdown_course(course_dict)`. -/
def generate_markdown_course (c : CourseContentD) : String :=
  mdHeader c ++ joinSepMapNum 1 "" (fun mi m => mdModule mi m) c.modules

/-! ### `generate_html_course` (source lines 78-224)

Literal braces of the rendered CSS (written `{{`/`}}` inside the
source's f-string) appear below as the escapes `\x7b`/`\x7d`. -/
/-- The HTML document head, style block and course-level metadata
(lines 88-177).  Note line 162: the difficulty is rendered through
`str.title()`, not verbatim. -/
def htmlHead (c : CourseContentD) : String :=
  strJoin ["<!DOCTYPE html>\n<html lang=\"en\">\n<head>\n    <meta charset=\"UTF-8\">\n    <meta name=\"viewport\" content=\"width=device-width, initial-scale=1.0\">\n    <title>",
    c.title,
    "</title>\n    <style>\n        body \x7b\n            font-family: 'Segoe UI', Tahoma, Geneva, Verdana, sans-serif;\n            line-height: 1.6;\n            max-width: 900px;\n            margin: 0 auto;\n            padding: 20px;\n            background-color: #f5f5f5;\n        \x7d\n        .container \x7b\n            background-color: white;\n            padding: 30px;\n            border-radius: 8px;\n            box-shadow: 0 2px 4px rgba(0,0,0,0.1);\n        \x7d\n        h1 \x7b\n            color: #2c3e50;\n            border-bottom: 3px solid #3498db;\n            padding-bottom: 10px;\n        \x7d\n        h2 \x7b\n            color: #34495e;\n            margin-top: 30px;\n        \x7d\n        h3 \x7b\n            color: #3498db;\n            margin-top: 25px;\n        \x7d\n        h4 \x7b\n            color: #555;\n            margin-top: 20px;\n        \x7d\n        .meta \x7b\n            background-color: #ecf0f1;\n            padding: 15px;\n            border-radius: 5px;\n            margin: 20px 0;\n        \x7d\n        .meta-item \x7b\n            margin: 5px 0;\n        \x7d\n        .content-section \x7b\n            margin: 20px 0;\n            padding: 15px;\n            background-color: #f9f9f9;\n            border-left: 4px solid #3498db;\n        \x7d\n        ul, ol \x7b\n            margin: 10px 0;\n        \x7d\n        li \x7b\n            margin: 5px 0;\n        \x7d\n        .assessment \x7b\n            background-color: #fff8dc;\n            padding: 10px;\n            margin: 10px 0;\n            border-radius: 5px;\n        \x7d\n    </style>\n</head>\n<body>\n    <div class=\"container\">\n        <h1>",
    c.title,
    "</h1>\n        \n        <div class=\"meta\">\n            <div class=\"meta-item\"><strong>Description:</strong> ",
    c.description,
    "</div>\n            <div class=\"meta-item\"><strong>Target Audience:</strong> ",
    c.target_audience,
    "</div>\n            <div class=\"meta-item\"><strong>Difficulty:</strong> ",
    pyTitle c.difficulty_level,
    "</div>\n            <div class=\"meta-item\"><strong>Duration:</strong> ",
    toString c.duration_weeks,
    " weeks</div>\n        </div>\n        \n        <h2>Prerequisites</h2>\n        <ul>\n            ",
    joinSepMapNum 1 "" (fun _ p => "<li>" ++ p ++ "</li>") c.prerequisites,
    "\n        </ul>\n        \n        <h2>Learning Outcomes</h2>\n        <ul>\n            ",
    joinSepMapNum 1 "" (fun _ o => "<li>" ++ o ++ "</li>") c.learning_outcomes,
    "\n        </ul>\n        \n        <h2>Course Content</h2>\n"]

/-- One lesson's HTML block (lines 188-214). -/
def htmlLesson (mi li : Nat) (L : LessonD) : String :=
  strJoin ["\n            <h4>Lesson ", toString mi, ".", toString li, ": ",
    L.title,
    "</h4>\n            <p><strong>Duration:</strong> ",
    toString L.duration_minutes,
    " minutes</p>\n            \n            <p><strong>Learning Objectives:</strong></p>\n            <ul>\n                ",
    joinSepMapNum 1 "" (fun _ o => "<li>" ++ o ++ "</li>") L.learning_objectives,
    "\n            </ul>\n            \n            <p><strong>Content:</strong></p>\n            <p>",
    L.content,
    "</p>\n            \n            <p><strong>Key Points:</strong></p>\n            <ul>\n                ",
    joinSepMapNum 1 "" (fun _ p => "<li>" ++ p ++ "</li>") L.key_points,
    "\n            </ul>\n            \n            <p><strong>Activities:</strong></p>\n            <ol>\n                ",
    joinSepMapNum 1 "" (fun _ a => "<li>" ++ a ++ "</li>") L.activities,
    "\n            </ol>\n            \n            <p><strong>Assessment:</strong></p>\n            <div class=\"assessment\">\n                ",
    joinSepMapNum 1 ""
      (fun i q => "<p><strong>Q" ++ toString i ++ ":</strong> " ++ q.question ++
        "<br><strong>A:</strong> " ++ q.answer ++ "</p>")
      L.assessment_questions,
    "\n            </div>\n"]

/-- One module's HTML block with its lessons and the closing `</div>`
appended at the end of each module iteration (lines 179-216). -/
def htmlModule (mi : Nat) (m : ModuleD) : String :=
  strJoin ["\n        <div class=\"content-section\">\n            <h3>Module ",
    toString mi, ": ", m.title,
    "</h3>\n            <p><strong>Description:</strong> ", m.description,
    "</p>\n            <p><strong>Duration:</strong> ",
    showTenths m.duration_hours,
    " hours</p>\n",
    joinSepMapNum 1 "" (fun li L => htmlLesson mi li L) m.lessons,
    "</div>"]

/-- Model of `generate_html_course(course_dict)` (lines 88-224). -/
def generate_html_course (c : CourseContentD) : String :=
  htmlHead c ++ joinSepMapNum 1 "" (fun mi m => htmlModule mi m) c.modules ++
    "\n    </div>\n</body>\n</html>\n"

/-! ## Claim C3 about the export formatters -/
/-- C3 counterexample course: `difficulty_level = "beginner"`, no other
field containing that word. -/
def plainCourse : CourseContentD :=
  { title := "Safety", description := "d", target_audience := "adults",
    difficulty_level := "beginner", duration_weeks := 4,
    prerequisites := [], learning_outcomes := [], modules := [] }

/-- C3 witness lesson. -/
def witnessLesson : LessonD :=
  { title := "Kneading", duration_minutes := 45,
    learning_objectives := ["Mix dough"], content := "Long text.",
    key_points := ["Rest the dough"], activities := ["Bake bread"],
    assessment_questions := [⟨"Why rest?", "Gluten relaxes"⟩] }

/-- C3 witness module (its `duration_hours` is irrelevant to the
containment statements and left at 0). -/
def witnessModule : ModuleD :=
  { title := "Crust Basics", description := "About crusts",
    duration_hours := 0, lessons := [witnessLesson] }

/-- C3 witness course. -/
def witnessCourse : CourseContentD :=
  { title := "Baking", description := "Course on bread",
    target_audience := "home bakers", difficulty_level := "beginner",
    duration_weeks := 4, prerequisites := ["An oven"],
    learning_outcomes := ["Bake a loaf"], modules := [witnessModule] }

/-! ## Calendar model for `src/agent/roadmap_agent.py`

`generate_roadmap_from_modules` computes
`end = strptime(start_date, "%Y-%m-%d") + timedelta(weeks=duration_weeks)`
inside a bare `try/except` (lines 116-123).  The `datetime` library is
external, so it is modelled from its specification: the proleptic
Gregorian calendar with years 1..9999, `timedelta` addition advancing
the calendar day by day, and `OverflowError` past 9999-12-31 (caught by
the `except`, leaving the end date `None`). -/
/-- A `datetime.date` value. -/
structure Date where
  year : Nat
  month : Nat
  day : Nat
deriving DecidableEq, Repr

/-- Gregorian leap-year rule. -/
def isLeapYear (y : Nat) : Bool :=
  y % 4 = 0 && (y % 100 ≠ 0 || y % 400 = 0)

/-- Length of month `m` of year `y`. -/
def daysInMonth (y m : Nat) : Nat :=
  if m = 2 then (if isLeapYear y then 29 else 28)
  else if m = 4 ∨ m = 6 ∨ m = 9 ∨ m = 11 then 30
  else 31

/-- The dates `datetime.date` can represent. -/
def validDateB (d : Date) : Bool :=
  1 ≤ d.year && d.year ≤ 9999 && 1 ≤ d.month && d.month ≤ 12 &&
    1 ≤ d.day && d.day ≤ daysInMonth d.year d.month

/-- The next calendar day. -/
def nextDay (d : Date) : Date :=
  if d.day < daysInMonth d.year d.month then ⟨d.year, d.month, d.day + 1⟩
  else if d.month < 12 then ⟨d.year, d.month + 1, 1⟩
  else ⟨d.year + 1, 1, 1⟩

/-- Modelled from the spec: `date + timedelta(days=n)` advances `n`
calendar days and raises `OverflowError` (here `none`) when the result
would pass year 9999. -/
def addDaysPy : Nat → Date → Option Date
  | 0, d => some d
  | n + 1, d =>
    if (nextDay d).year ≤ 9999 then addDaysPy n (nextDay d) else none

/-- Modelled from the spec: `datetime.strptime(s, "%Y-%m-%d")` —
CPython's `_strptime` matches exactly four year digits, one or two
month digits, one or two day digits, requires the whole string to be
consumed, and the `datetime` constructor then validates
`1 <= year`, `1 <= month <= 12` and `1 <= day <= ` the month length
(`ValueError`, i.e. `none`, otherwise). -/
def parseYmd (s : String) : Option Date :=
  let yd := s.data.takeWhile isDigitB
  let r1 := s.data.dropWhile isDigitB
  if yd.length = 4 then
    match r1 with
    | '-' :: r2 =>
      let md := r2.takeWhile isDigitB
      let r3 := r2.dropWhile isDigitB
      if 1 ≤ md.length ∧ md.length ≤ 2 then
        match r3 with
        | '-' :: r4 =>
          let dd := r4.takeWhile isDigitB
          let r5 := r4.dropWhile isDigitB
          if 1 ≤ dd.length ∧ dd.length ≤ 2 ∧ r5 = [] then
            if 1 ≤ digitsToNat yd ∧ 1 ≤ digitsToNat md ∧ digitsToNat md ≤ 12 ∧
                1 ≤ digitsToNat dd ∧
                digitsToNat dd ≤ daysInMonth (digitsToNat yd) (digitsToNat md) then
              some ⟨digitsToNat yd, digitsToNat md, digitsToNat dd⟩
            else none
          else none
        | _ => none
      else none
    | _ => none
  else none

/-- Digit character of `k` (`k < 10` at every use). -/
def dch (k : Nat) : Char :=
  if k = 0 then '0' else if k = 1 then '1' else if k = 2 then '2'
  else if k = 3 then '3' else if k = 4 then '4' else if k = 5 then '5'
  else if k = 6 then '6' else if k = 7 then '7' else if k = 8 then '8'
  else '9'

/-- Modelled from the spec: `date.strftime("%Y-%m-%d")` with the year
zero-padded to four digits and month and day to two. -/
def formatYmd (d : Date) : String :=
  ⟨[dch (d.year / 1000 % 10), dch (d.year / 100 % 10), dch (d.year / 10 % 10),
    dch (d.year % 10), '-', dch (d.month / 10 % 10), dch (d.month % 10), '-',
    dch (d.day / 10 % 10), dch (d.day % 10)]⟩

/-- The `calculated_end_date` computation of
`generate_roadmap_from_modules` (lines 114-123): `None` unless a start
date is given, parses, and the addition stays in range; the whole
`try` body is guarded by `except: pass`. -/
def calculatedEndDate (start_date : Option String) (duration_weeks : Nat) :
    Option String :=
  match start_date with
  | none => none
  | some s =>
    match parseYmd s with
    | none => none
    | some d =>
      match addDaysPy (7 * duration_weeks) d with
      | none => none
      | some e => some (formatYmd e)

/-! ## Roadmap data model (`roadmap_agent.py` lines 17-47) -/
/-- A `WeeklySchedule` record. -/
structure WeeklyScheduleD where
  week_number : Int
  week_title : String
  topics : List String
  modules_covered : List String
  estimated_hours : ℚ
  milestones : List String
  deliverables : List String
deriving DecidableEq, Repr

/-- A `Milestone` record. -/
structure MilestoneD where
  week : Int
  title : String
  description : String
  type : String
deriving DecidableEq, Repr

/-- A `CourseRoadmap` record. -/
structure CourseRoadmapD where
  course_title : String
  total_duration_weeks : Nat
  start_date : Option String
  end_date : Option String
  total_modules : Nat
  total_estimated_hours : ℚ
  weekly_schedule : List WeeklyScheduleD
  milestones : List MilestoneD
  study_tips : List String
  pacing_recommendations : String
deriving DecidableEq, Repr

/-- The decoded JSON the roadmap model call returns (the `result`
dictionary of lines 204-235). -/
structure RoadmapLLM where
  weekly_schedule : List WeeklyScheduleD
  milestones : List MilestoneD
  study_tips : List String
  pacing_recommendations : String
deriving DecidableEq, Repr

/-- Model of `generate_roadmap_from_modules` (lines 81-258).
`_difficulty` and `_hours_per_week` only shape the prompt text and are
absorbed by the `llm` oracle; `total_estimated_hours` is
`round(sum(week estimated_hours), 1)` (lines 237-247). -/
def generate_roadmap_from_modules (course_title : String)
    (modules : List ModuleD) (duration_weeks : Nat) (_difficulty : String)
    (_hours_per_week : ℚ) (start_date : Option String) (llm : RoadmapLLM) :
    CourseRoadmapD :=
  { course_title := course_title
    total_duration_weeks := duration_weeks
    start_date := start_date
    end_date := calculatedEndDate start_date duration_weeks
    total_modules := modules.length
    total_estimated_hours :=
      pyRound1 ((llm.weekly_schedule.map (fun w => w.estimated_hours)).sum)
    weekly_schedule := llm.weekly_schedule
    milestones := llm.milestones
    study_tips := llm.study_tips
    pacing_recommendations := llm.pacing_recommendations }

/-! ## Flask layer (`src/app_flask.py`) -/
/-- The module-level `course_storage` dictionary (lines 37-40), the
in-memory state shared across requests. -/
structure Storage where
  course_content : Option CourseContentD
  course_roadmap : Option CourseRoadmapD
deriving DecidableEq, Repr

/-- Response of `/api/generate-course`: the JSON course payload on
success, or an HTTP status code and error message. -/
inductive CourseResp where
  | ok : CourseContentD → CourseResp
  | err : Nat → String → CourseResp
deriving DecidableEq, Repr

/-- Response of `/api/generate-roadmap`. -/
inductive RoadmapResp where
  | ok : CourseRoadmapD → RoadmapResp
  | err : Nat → String → RoadmapResp
deriving DecidableEq, Repr

/-- Python `', '.join(missing)`. -/
def joinComma (l : List String) : String :=
  joinSepMapNum 1 ", " (fun _ s => s) l

/-- Model of the `generate_course` handler (lines 88-149): missing API
key is a 500, an empty prompt a 400, unextracted required fields a 400;
otherwise the LangChain agent generates the course, which is stored in
`course_storage['course_content']` and returned.  The `getD` defaults
are unreachable: an empty missing list means every parameter is set. -/
def generate_course_route (st : Storage) (apiKeyOk : Bool) (prompt : String)
    (outline1 : Outline) (lessonOracle : Nat → Nat → List LessonD) :
    Storage × CourseResp :=
  if !apiKeyOk then
    (st, .err 500 "API key not configured. Please set GOOGLE_API_KEY in .env file.")
  else if prompt = "" then
    (st, .err 400 "Please enter course requirements")
  else if (extract_course_parameters prompt).2 ≠ [] then
    (st, .err 400 ("Missing required information: " ++
      joinComma (extract_course_parameters prompt).2))
  else
    match CourseContentAgentLangChain.generate_complete_course outline1
      lessonOracle ((extract_course_parameters prompt).1.topic.getD "")
      ((extract_course_parameters prompt).1.duration_weeks.getD 4)
      ((extract_course_parameters prompt).1.difficulty.getD "beginner")
      ((extract_course_parameters prompt).1.target_audience.getD "general learners")
      ((extract_course_parameters prompt).1.lessons_per_module.getD 4) none with
    | .error e => (st, .err 500 e)
    | .ok course => ({ st with course_content := some course }, .ok course)

/-- Model of the `generate_roadmap` handler (lines 152-206): it reads
the course stored by a previous `/api/generate-course` request from
`course_storage` (a 400 when there is none), generates the roadmap from
it with `hours_per_week = 5.0` and `start_date = ` today's date (the
`now` parameter), stores and returns it. -/
def generate_roadmap_route (st : Storage) (apiKeyOk : Bool) (llm : RoadmapLLM)
    (now : String) : Storage × RoadmapResp :=
  if !apiKeyOk then (st, .err 500 "API key not configured")
  else
    match st.course_content with
    | none => (st, .err 400 "Please generate course content first")
    | some course =>
      ({ st with course_roadmap := some (generate_roadmap_from_modules
          course.title course.modules course.duration_weeks
          course.difficulty_level 5 (some now) llm) },
       .ok (generate_roadmap_from_modules course.title course.modules
          course.duration_weeks course.difficulty_level 5 (some now) llm))

/-- The course title of a roadmap response, used to observe which
stored course a roadmap was generated from. -/
def respTitle : RoadmapResp → Option String
  | .ok r => some r.course_title
  | .err _ _ => none

/-! ## Claim C8 about cross-request state -/
/-- A first-outline oracle value whose title matches the topic of the
counterexample prompt. -/
def pyOutlineA : Outline := ⟨"Python One", "d", [], [], [⟨"M1", "D1"⟩]⟩

/-- A different model output for the same course request. -/
def pyOutlineB : Outline := ⟨"Python Two", "d", [], [], [⟨"M1", "D1"⟩]⟩

/-- The storage left behind by a `/api/generate-course` request whose
outline call returned `pyOutlineA`. -/
def storedA : Storage :=
  (generate_course_route ⟨none, none⟩ true "topic: python data science"
    pyOutlineA (fun _ _ => [])).1

/-- The storage left behind by the same request when the outline call
returned `pyOutlineB` instead. -/
def storedB : Storage :=
  (generate_course_route ⟨none, none⟩ true "topic: python data science"
    pyOutlineB (fun _ _ => [])).1

/-- C7 counterexample outline: a title sharing no topic keyword with
the requested topic. -/
def bakingOutline : Outline :=
  ⟨"Introduction to Baking", "d", [], [], [⟨"M1", "D1"⟩]⟩

/-! ## Theorems -/

/-! ## Lemmas about the pattern-loop shape -/
theorem firstSome_eq_none {l : List α} {f : α → Option β} :
    firstSome l f = none ↔ ∀ x ∈ l, f x = none := by
  induction l with
  | nil => simp [firstSome]
  | cons x xs ih =>
    simp only [firstSome]
    cases h : f x with
    | some b => simp [h]
    | none => simpa [h] using ih

theorem firstSome_mem {l : List α} {f : α → Option β} {b : β}
    (h : firstSome l f = some b) : ∃ x ∈ l, f x = some b := by
  induction l with
  | nil => simp [firstSome] at h
  | cons x xs ih =>
    simp only [firstSome] at h
    cases hx : f x with
    | some c =>
      rw [hx] at h
      exact ⟨x, List.mem_cons_self x xs, hx.trans h⟩
    | none =>
      rw [hx] at h
      obtain ⟨y, hy, hfy⟩ := ih h
      exact ⟨y, List.mem_cons_of_mem x hy, hfy⟩

theorem firstSome_eq_some_iff {l : List α} {f : α → Option β} {b : β} :
    firstSome l f = some b ↔
      ∃ i, ∃ hi : i < l.length,
        f (l.get ⟨i, hi⟩) = some b ∧
        ∀ j, (hj : j < l.length) → j < i → f (l.get ⟨j, hj⟩) = none := by
  induction l with
  | nil => simp [firstSome]
  | cons x xs ih =>
    simp only [firstSome]
    cases hx : f x with
    | some c =>
      constructor
      · intro h
        refine ⟨0, by simp, by simpa [hx] using h, ?_⟩
        intro j hj hj0
        omega
      · rintro ⟨i, hi, hfi, hlt⟩
        cases i with
        | zero => simpa [hx] using hfi
        | succ i =>
          have := hlt 0 (by simp) (Nat.succ_pos i)
          simp [hx] at this
    | none =>
      rw [ih]
      constructor
      · rintro ⟨i, hi, hfi, hlt⟩
        refine ⟨i + 1, by simpa using Nat.succ_lt_succ hi, by simpa using hfi, ?_⟩
        intro j hj hji
        cases j with
        | zero => simpa using hx
        | succ j =>
          have hj' : j < xs.length := by simpa using Nat.lt_of_succ_lt_succ hj
          simpa using hlt j hj' (Nat.lt_of_succ_lt_succ hji)
      · rintro ⟨i, hi, hfi, hlt⟩
        cases i with
        | zero => simp [hx] at hfi
        | succ i =>
          have hi' : i < xs.length := by simpa using Nat.lt_of_succ_lt_succ hi
          refine ⟨i, hi', by simpa using hfi, ?_⟩
          intro j hj hji
          have hj' : j + 1 < (x :: xs).length := by simpa using Nat.succ_lt_succ hj
          simpa using hlt (j + 1) hj' (Nat.succ_lt_succ hji)

theorem topicStep_length {pl : List Char} {pat : RE} {t : String}
    (h : topicStep pl pat = some t) : 3 < t.length := by
  unfold topicStep at h
  cases hr : research pat pl with
  | none => simp [hr] at h
  | some cap =>
    rw [hr] at h
    simp only [] at h
    split at h
    · rename_i hlen
      cases h
      simpa [String.length] using hlen
    · simp at h

theorem durationStep_none {pl : List Char} {pat : RE}
    (h : research pat pl = none) : durationStep pl pat = none := by
  simp [durationStep, h]

theorem durationStep_range {pl : List Char} {pat : RE} {w : Nat}
    (h : durationStep pl pat = some w) : 1 ≤ w ∧ w ≤ 52 := by
  unfold durationStep at h
  cases hr : research pat pl with
  | none => simp [hr] at h
  | some cap =>
    rw [hr] at h
    simp only [] at h
    split at h
    · rename_i hrange
      cases h
      exact hrange
    · simp at h

theorem lessonsStep_none {pl : List Char} {pat : RE}
    (h : research pat pl = none) : lessonsStep pl pat = none := by
  simp [lessonsStep, h]

theorem lessonsStep_range {pl : List Char} {pat : RE} {k : Nat}
    (h : lessonsStep pl pat = some k) : 1 ≤ k ∧ k ≤ 20 := by
  unfold lessonsStep at h
  cases hr : research pat pl with
  | none => simp [hr] at h
  | some cap =>
    rw [hr] at h
    simp only [] at h
    split at h
    · rename_i hrange
      cases h
      exact hrange
    · simp at h

theorem audienceStep_none {pl : List Char} {pat : RE}
    (h : research pat pl = none) : audienceStep pl pat = none := by
  simp [audienceStep, h]

theorem difficultyStep_none {pl : List Char} {e : String × List String}
    (h : ∀ kw ∈ e.2, hasMatchB (wordRE kw) pl = false) :
    difficultyStep pl e = none := by
  unfold difficultyStep
  have : e.2.any (fun kw => hasMatchB (wordRE kw) pl) = false := by
    simp only [List.any_eq_false]
    intro kw hkw
    simp [h kw hkw]
  simp [this]

theorem difficultyStep_key {pl : List Char} {e : String × List String} {d : String}
    (h : difficultyStep pl e = some d) : d = e.1 := by
  unfold difficultyStep at h
  split at h
  · cases h; rfl
  · simp at h

/-! ## Claims C4, C5 and C10 about `extract_course_parameters` -/
/-- C4: whenever an optional field is matched by none of its patterns,
`extract_course_parameters` falls back to the fixed defaults
(`duration_weeks = 4`, `difficulty = 'beginner'`,
`target_audience = 'general learners'`, `lessons_per_module = 4`), and
the topic is the only field the missing-required list can report, as
`'Course Topic'`, exactly when it was not extracted. -/
theorem claim_C4_defaults (prompt : String) :
    ((∀ pat ∈ duration_patterns, research pat (pyLower prompt).data = none) →
        (extract_course_parameters prompt).1.duration_weeks = some 4) ∧
    ((∀ e ∈ difficulty_mappings, ∀ kw ∈ e.2,
        hasMatchB (wordRE kw) (pyLower prompt).data = false) →
        (extract_course_parameters prompt).1.difficulty = some "beginner") ∧
    ((∀ pat ∈ audience_patterns, research pat (pyLower prompt).data = none) →
        (extract_course_parameters prompt).1.target_audience = some "general learners") ∧
    ((∀ pat ∈ lessons_patterns, research pat (pyLower prompt).data = none) →
        (extract_course_parameters prompt).1.lessons_per_module = some 4) ∧
    ((extract_course_parameters prompt).1.topic = none →
        (extract_course_parameters prompt).2 = ["Course Topic"]) ∧
    ((extract_course_parameters prompt).1.topic ≠ none →
        (extract_course_parameters prompt).2 = []) := by
  refine ⟨?_, ?_, ?_, ?_, ?_, ?_⟩
  · intro h
    have : firstSome duration_patterns (durationStep (pyLower prompt).data) = none :=
      firstSome_eq_none.mpr fun pat hm => durationStep_none (h pat hm)
    simp [extract_course_parameters, this]
  · intro h
    have : firstSome difficulty_mappings (difficultyStep (pyLower prompt).data) = none :=
      firstSome_eq_none.mpr fun e hm => difficultyStep_none (h e hm)
    simp [extract_course_parameters, this]
  · intro h
    have : firstSome audience_patterns (audienceStep (pyLower prompt).data) = none :=
      firstSome_eq_none.mpr fun pat hm => audienceStep_none (h pat hm)
    simp [extract_course_parameters, this]
  · intro h
    have : firstSome lessons_patterns (lessonsStep (pyLower prompt).data) = none :=
      firstSome_eq_none.mpr fun pat hm => lessonsStep_none (h pat hm)
    simp [extract_course_parameters, this]
  · intro h
    simp only [extract_course_parameters] at h ⊢
    cases ht : firstSome topic_patterns (topicStep (pyLower prompt).data) with
    | none => simp [ht]
    | some t => simp [ht] at h
  · intro h
    simp only [extract_course_parameters] at h ⊢
    cases ht : firstSome topic_patterns (topicStep (pyLower prompt).data) with
    | none => simp [ht] at h
    | some t =>
      obtain ⟨pat, _, hstep⟩ := firstSome_mem ht
      have hlen := topicStep_length hstep
      have : t ≠ "" := by
        intro he
        rw [he] at hlen
        simp at hlen
      simp [ht, this]

/-- C4 witness: on the prompt `"zzz"` no pattern of any field matches,
and all defaults plus the missing-topic report are produced. -/
theorem claim_C4_witness :
    (extract_course_parameters "zzz").1.duration_weeks = some 4 ∧
    (extract_course_parameters "zzz").1.difficulty = some "beginner" ∧
    (extract_course_parameters "zzz").1.target_audience = some "general learners" ∧
    (extract_course_parameters "zzz").1.lessons_per_module = some 4 ∧
    (extract_course_parameters "zzz").2 = ["Course Topic"] :=
  ⟨(claim_C4_defaults "zzz").1 (by decide),
   (claim_C4_defaults "zzz").2.1 (by decide),
   (claim_C4_defaults "zzz").2.2.1 (by decide),
   (claim_C4_defaults "zzz").2.2.2.1 (by decide),
   (claim_C4_defaults "zzz").2.2.2.2.1 (by decide)⟩

/-- C5 counterexample: on the prompt `"0 weeks; over 5 weeks"`, the
first duration pattern that matches captures `"0"`, yet the function
returns `duration_weeks = 5` (taken from a later pattern, because the
first pattern's value fails the 1..52 sanity guard).  So the extractor
does not always take the value captured by the first matching
pattern. -/
theorem claim_C5_counterexample :
    (firstSome duration_patterns
       (fun pat => research pat (pyLower "0 weeks; over 5 weeks").data)
       = some ['0']) ∧
    (extract_course_parameters "0 weeks; over 5 weeks").1.duration_weeks = some 5 ∧
    digitsToNat ['0'] ≠ 5 :=
  ⟨by decide, by decide, by decide⟩

/-- C5 (amended): for each field the extractor applies that field's
ordered pattern list and takes the processed value of the first pattern
whose match also passes the field's acceptance guard (length > 3 after
cleanup for topic and audience, 1..52 for duration, 1..20 for
lessons-per-module, any whole-word keyword hit for difficulty); earlier
patterns that match but fail the guard are skipped. -/
theorem claim_C5_amended (prompt : String) :
    ((extract_course_parameters prompt).1.topic
        = firstSome topic_patterns (topicStep (pyLower prompt).data)) ∧
    ((extract_course_parameters prompt).1.duration_weeks
        = some ((firstSome duration_patterns (durationStep (pyLower prompt).data)).getD 4)) ∧
    ((extract_course_parameters prompt).1.difficulty
        = some ((firstSome difficulty_mappings (difficultyStep (pyLower prompt).data)).getD "beginner")) ∧
    ((extract_course_parameters prompt).1.target_audience
        = some ((firstSome audience_patterns (audienceStep (pyLower prompt).data)).getD "general learners")) ∧
    ((extract_course_parameters prompt).1.lessons_per_module
        = some ((firstSome lessons_patterns (lessonsStep (pyLower prompt).data)).getD 4)) ∧
    (∀ t, firstSome topic_patterns (topicStep (pyLower prompt).data) = some t ↔
      ∃ i, ∃ hi : i < topic_patterns.length,
        topicStep (pyLower prompt).data (topic_patterns.get ⟨i, hi⟩) = some t ∧
        ∀ j, (hj : j < topic_patterns.length) → j < i →
          topicStep (pyLower prompt).data (topic_patterns.get ⟨j, hj⟩) = none) ∧
    (∀ w, firstSome duration_patterns (durationStep (pyLower prompt).data) = some w ↔
      ∃ i, ∃ hi : i < duration_patterns.length,
        durationStep (pyLower prompt).data (duration_patterns.get ⟨i, hi⟩) = some w ∧
        ∀ j, (hj : j < duration_patterns.length) → j < i →
          durationStep (pyLower prompt).data (duration_patterns.get ⟨j, hj⟩) = none) ∧
    (∀ d, firstSome difficulty_mappings (difficultyStep (pyLower prompt).data) = some d ↔
      ∃ i, ∃ hi : i < difficulty_mappings.length,
        difficultyStep (pyLower prompt).data (difficulty_mappings.get ⟨i, hi⟩) = some d ∧
        ∀ j, (hj : j < difficulty_mappings.length) → j < i →
          difficultyStep (pyLower prompt).data (difficulty_mappings.get ⟨j, hj⟩) = none) ∧
    (∀ a, firstSome audience_patterns (audienceStep (pyLower prompt).data) = some a ↔
      ∃ i, ∃ hi : i < audience_patterns.length,
        audienceStep (pyLower prompt).data (audience_patterns.get ⟨i, hi⟩) = some a ∧
        ∀ j, (hj : j < audience_patterns.length) → j < i →
          audienceStep (pyLower prompt).data (audience_patterns.get ⟨j, hj⟩) = none) ∧
    (∀ k, firstSome lessons_patterns (lessonsStep (pyLower prompt).data) = some k ↔
      ∃ i, ∃ hi : i < lessons_patterns.length,
        lessonsStep (pyLower prompt).data (lessons_patterns.get ⟨i, hi⟩) = some k ∧
        ∀ j, (hj : j < lessons_patterns.length) → j < i →
          lessonsStep (pyLower prompt).data (lessons_patterns.get ⟨j, hj⟩) = none) :=
  ⟨rfl, rfl, rfl, rfl, rfl,
   fun _ => firstSome_eq_some_iff, fun _ => firstSome_eq_some_iff,
   fun _ => firstSome_eq_some_iff, fun _ => firstSome_eq_some_iff,
   fun _ => firstSome_eq_some_iff⟩

/-- C5 witness: on `"0 weeks; over 5 weeks"` the accepted value 5 comes
from the first pattern that passes the guard, all earlier duration
patterns yielding no accepted value. -/
theorem claim_C5_witness :
    ∃ i, ∃ hi : i < duration_patterns.length,
      durationStep (pyLower "0 weeks; over 5 weeks").data
          (duration_patterns.get ⟨i, hi⟩) = some 5 ∧
      ∀ j, (hj : j < duration_patterns.length) → j < i →
        durationStep (pyLower "0 weeks; over 5 weeks").data
            (duration_patterns.get ⟨j, hj⟩) = none :=
  (((claim_C5_amended "0 weeks; over 5 weeks").2.2.2.2.2.2.1) 5).mp (by decide)

/-- C10: the parameter dictionary returned for any prompt satisfies the
invariants: `duration_weeks` is an integer in 1..52,
`lessons_per_module` an integer in 1..20, `difficulty` one of
`'beginner'`, `'intermediate'`, `'advanced'`, and `target_audience` is
never `None`; only the topic can be `None`. -/
theorem claim_C10_invariants (prompt : String) :
    (∃ w, (extract_course_parameters prompt).1.duration_weeks = some w ∧
       1 ≤ w ∧ w ≤ 52) ∧
    (∃ k, (extract_course_parameters prompt).1.lessons_per_module = some k ∧
       1 ≤ k ∧ k ≤ 20) ∧
    (∃ d, (extract_course_parameters prompt).1.difficulty = some d ∧
       (d = "beginner" ∨ d = "intermediate" ∨ d = "advanced")) ∧
    ((extract_course_parameters prompt).1.target_audience).isSome = true := by
  refine ⟨?_, ?_, ?_, ?_⟩
  · cases h : firstSome duration_patterns (durationStep (pyLower prompt).data) with
    | none => exact ⟨4, by simp [extract_course_parameters, h], by omega, by omega⟩
    | some w =>
      obtain ⟨pat, _, hstep⟩ := firstSome_mem h
      obtain ⟨h1, h2⟩ := durationStep_range hstep
      exact ⟨w, by simp [extract_course_parameters, h], h1, h2⟩
  · cases h : firstSome lessons_patterns (lessonsStep (pyLower prompt).data) with
    | none => exact ⟨4, by simp [extract_course_parameters, h], by omega, by omega⟩
    | some k =>
      obtain ⟨pat, _, hstep⟩ := firstSome_mem h
      obtain ⟨h1, h2⟩ := lessonsStep_range hstep
      exact ⟨k, by simp [extract_course_parameters, h], h1, h2⟩
  · cases h : firstSome difficulty_mappings (difficultyStep (pyLower prompt).data) with
    | none =>
      exact ⟨"beginner", by simp [extract_course_parameters, h], Or.inl rfl⟩
    | some d =>
      obtain ⟨e, hmem, hstep⟩ := firstSome_mem h
      have hd := difficultyStep_key hstep
      refine ⟨d, by simp [extract_course_parameters, h], ?_⟩
      have he : e.1 = "beginner" ∨ e.1 = "intermediate" ∨ e.1 = "advanced" := by
        simp only [difficulty_mappings, List.mem_cons, List.not_mem_nil,
          or_false] at hmem
        rcases hmem with rfl | rfl | rfl <;> simp
      rw [hd]
      exact he
  · simp [extract_course_parameters]

/-! ## Lemmas about the batch loop -/
theorem placeholderBlock_length (start k : Nat) :
    (placeholderBlock start k).length = k := by
  simp [placeholderBlock]

theorem placeholderBlock_fields (s k : Nat) :
    ∀ L ∈ placeholderBlock s k,
      L.duration_minutes = 45 ∧
      L.learning_objectives = ["To be developed"] ∧
      L.content = "Content to be developed." ∧
      L.key_points = ["To be developed"] ∧
      L.activities = ["Activity to be developed"] ∧
      L.assessment_questions = [⟨"To be developed", "To be developed"⟩] := by
  intro L hL
  simp only [placeholderBlock, List.mem_map] at hL
  obtain ⟨i, _, rfl⟩ := hL
  exact ⟨rfl, rfl, rfl, rfl, rfl, rfl⟩

namespace CourseContentAgent

theorem gmcLoop_one (oracle : Nat → List LessonD) (bn : Nat) (acc : List LessonD) :
    gmcLoop oracle 1 bn acc =
      if (oracle bn).isEmpty then acc ++ placeholderBlock acc.length 1
      else acc ++ oracle bn := rfl

theorem gmcLoop_two (oracle : Nat → List LessonD) (r bn : Nat) (acc : List LessonD) :
    gmcLoop oracle (r + 2) bn acc =
      gmcLoop oracle r (bn + 1)
        (if (oracle bn).isEmpty then acc ++ placeholderBlock acc.length 2
         else acc ++ oracle bn) := rfl

theorem gmcLoop_len_step (oracle : Nat → List LessonD) (bn k : Nat)
    (acc : List LessonD)
    (h : oracle bn ≠ [] → (oracle bn).length = k) :
    (if (oracle bn).isEmpty then acc ++ placeholderBlock acc.length k
     else acc ++ oracle bn).length = acc.length + k := by
  cases hl : oracle bn with
  | nil => simp [placeholderBlock_length]
  | cons x xs =>
    have hlen := h (by simp [hl])
    rw [hl] at hlen
    simp [hl, hlen]

theorem gmcLoop_length (oracle : Nat → List LessonD) :
    ∀ r bn (acc : List LessonD),
      (∀ k, 2 * k < r → oracle (bn + k) ≠ [] →
        (oracle (bn + k)).length = min 2 (r - 2 * k)) →
      (gmcLoop oracle r bn acc).length = acc.length + r := by
  intro r
  induction r using Nat.strong_induction_on with
  | _ r ih =>
    match r with
    | 0 => intro bn acc _; simp [gmcLoop]
    | 1 =>
      intro bn acc h
      rw [gmcLoop_one]
      have h0 := h 0 (by omega)
      rw [Nat.add_zero] at h0
      have := gmcLoop_len_step oracle bn 1 acc (by
        intro hne
        rw [h0 hne]
        decide)
      rw [this]
    | r + 2 =>
      intro bn acc h
      rw [gmcLoop_two]
      have h0 := h 0 (by omega)
      rw [Nat.add_zero] at h0
      have hstep := gmcLoop_len_step oracle bn 2 acc (by
        intro hne
        rw [h0 hne]
        omega)
      have hshift : ∀ k, 2 * k < r → oracle (bn + 1 + k) ≠ [] →
          (oracle (bn + 1 + k)).length = min 2 (r - 2 * k) := by
        intro k hk hne
        have he : bn + (k + 1) = bn + 1 + k := by omega
        have hh := h (k + 1) (by omega)
        rw [he] at hh
        rw [hh hne]
        congr 1
        omega
      rw [ih r (by omega) (bn + 1) _ hshift, hstep]
      omega

theorem gmcLoop_acc_grows (oracle : Nat → List LessonD) :
    ∀ r bn (acc : List LessonD), ∃ t, gmcLoop oracle r bn acc = acc ++ t := by
  intro r
  induction r using Nat.strong_induction_on with
  | _ r ih =>
    match r with
    | 0 => intro bn acc; exact ⟨[], by simp [gmcLoop]⟩
    | 1 =>
      intro bn acc
      rw [gmcLoop_one]
      cases hl : oracle bn with
      | nil => exact ⟨placeholderBlock acc.length 1, by simp⟩
      | cons x xs => exact ⟨x :: xs, by simp⟩
    | r + 2 =>
      intro bn acc
      rw [gmcLoop_two]
      cases hl : oracle bn with
      | nil =>
        obtain ⟨t, ht⟩ :=
          ih r (by omega) (bn + 1) (acc ++ placeholderBlock acc.length 2)
        refine ⟨placeholderBlock acc.length 2 ++ t, ?_⟩
        rw [if_pos (by simp)]
        simpa [List.append_assoc] using ht
      | cons x xs =>
        obtain ⟨t, ht⟩ := ih r (by omega) (bn + 1) (acc ++ (x :: xs))
        refine ⟨(x :: xs) ++ t, ?_⟩
        rw [if_neg (by simp)]
        simpa [List.append_assoc] using ht

theorem gmcLoop_failed_block (oracle : Nat → List LessonD) :
    ∀ r bn (acc : List LessonD) b, bn ≤ b → 2 * (b - bn) < r → oracle b = [] →
      ∃ pre suf, gmcLoop oracle r bn acc
        = pre ++ placeholderBlock pre.length (min 2 (r - 2 * (b - bn))) ++ suf := by
  intro r
  induction r using Nat.strong_induction_on with
  | _ r ih =>
    match r with
    | 0 => intro bn acc b _ h2 _; omega
    | 1 =>
      intro bn acc b hb1 hb2 hfail
      have hbb : b = bn := by omega
      subst hbb
      rw [gmcLoop_one, hfail]
      refine ⟨acc, [], ?_⟩
      have hm : min 2 (1 - 2 * (b - b)) = 1 := by omega
      rw [hm]
      simp
    | r + 2 =>
      intro bn acc b hb1 hb2 hfail
      rw [gmcLoop_two]
      rcases Nat.eq_or_lt_of_le hb1 with hbb | hbb
      · subst hbb
        rw [hfail]
        obtain ⟨t, ht⟩ :=
          gmcLoop_acc_grows oracle r (bn + 1) (acc ++ placeholderBlock acc.length 2)
        refine ⟨acc, t, ?_⟩
        have hm : min 2 (r + 2 - 2 * (bn - bn)) = 2 := by omega
        rw [hm, if_pos (by simp)]
        simpa [List.append_assoc] using ht
      · have hreq : min 2 (r - 2 * (b - (bn + 1))) = min 2 (r + 2 - 2 * (b - bn)) := by
          omega
        obtain ⟨pre, suf, hps⟩ :=
          ih r (by omega) (bn + 1)
            (if (oracle bn).isEmpty then acc ++ placeholderBlock acc.length 2
             else acc ++ oracle bn) b (by omega) (by omega) hfail
        exact ⟨pre, suf, by rw [← hreq]; exact hps⟩

end CourseContentAgent

/-- C1 counterexample: with `num_lessons = 2 ≥ 1` and a first batch that
returns three lessons, `generate_module_content` returns three entries,
not two — the loop subtracts the requested batch size, not the number
of lessons actually received, so the claimed exact count fails for some
sequences of per-batch results. -/
theorem claim_C1_counterexample :
    1 ≤ 2 ∧
    (CourseContentAgent.generate_module_content oversupplyOracle 2).length ≠ 2 :=
  ⟨by decide, by decide⟩

/-- Helper shared by the C1 and C6 theorems: when every successful
batch returns exactly its requested size, the loop's result has exactly
`num_lessons` entries. -/
theorem gmc_length_of_sizes (oracle : Nat → List LessonD) (num_lessons : Nat)
    (hsizes : ∀ b, 1 ≤ b → 2 * (b - 1) < num_lessons → oracle b ≠ [] →
       (oracle b).length = min 2 (num_lessons - 2 * (b - 1))) :
    (CourseContentAgent.generate_module_content oracle num_lessons).length
      = num_lessons := by
  have h := CourseContentAgent.gmcLoop_length oracle num_lessons 1 [] ?_
  · simpa using h
  · intro k hk hne
    have := hsizes (1 + k) (by omega) (by omega) hne
    rw [this]
    congr 1
    omega

/-- C1 (amended): if every successful batch returns exactly the number
of lessons requested for it (`min 2 remaining`), then
`generate_module_content` returns exactly `num_lessons` entries, batch
failures included; the LangChain agent's loop is the same function. -/
theorem claim_C1_amended (oracle : Nat → List LessonD) (num_lessons : Nat)
    (_hn : 1 ≤ num_lessons)
    (hsizes : ∀ b, 1 ≤ b → 2 * (b - 1) < num_lessons → oracle b ≠ [] →
       (oracle b).length = min 2 (num_lessons - 2 * (b - 1))) :
    (CourseContentAgent.generate_module_content oracle num_lessons).length
      = num_lessons ∧
    CourseContentAgentLangChain.generate_module_content oracle num_lessons
      = CourseContentAgent.generate_module_content oracle num_lessons :=
  ⟨gmc_length_of_sizes oracle num_lessons hsizes, rfl⟩

/-- C1 witness: four lessons requested, first batch fails, second batch
returns its two requested lessons; the result still has four entries. -/
theorem claim_C1_witness :
    (CourseContentAgent.generate_module_content
       (fun b => if b = 2 then [placeholderLesson 9, placeholderLesson 10] else [])
       4).length = 4 :=
  (claim_C1_amended
    (fun b => if b = 2 then [placeholderLesson 9, placeholderLesson 10] else [])
    4 (by decide)
    (by
      intro b hb1 hb2 hne
      have hb3 : b ≤ 2 := by omega
      interval_cases b
      · exact absurd rfl hne
      · decide)).1

/-- C6: a failed batch call does not abort the generation: the result
decomposes around a block of `min 2 remaining` placeholder lessons for
the failed batch's slots, every placeholder has the fixed 45-minute
duration and 'To be developed' objectives, content, key points,
activities and assessment, and the loop still reaches the requested
count when the other batches return their requested sizes. -/
theorem claim_C6_failed_batch (oracle : Nat → List LessonD) (num_lessons b : Nat)
    (hb1 : 1 ≤ b) (hb2 : 2 * (b - 1) < num_lessons) (hfail : oracle b = []) :
    (∃ pre suf,
      CourseContentAgent.generate_module_content oracle num_lessons
        = pre ++ placeholderBlock pre.length (min 2 (num_lessons - 2 * (b - 1))) ++ suf) ∧
    (∀ s k, ∀ L ∈ placeholderBlock s k,
      L.duration_minutes = 45 ∧
      L.learning_objectives = ["To be developed"] ∧
      L.content = "Content to be developed." ∧
      L.key_points = ["To be developed"] ∧
      L.activities = ["Activity to be developed"] ∧
      L.assessment_questions = [⟨"To be developed", "To be developed"⟩]) ∧
    ((∀ b', 1 ≤ b' → 2 * (b' - 1) < num_lessons → oracle b' ≠ [] →
        (oracle b').length = min 2 (num_lessons - 2 * (b' - 1))) →
      (CourseContentAgent.generate_module_content oracle num_lessons).length
        = num_lessons) := by
  refine ⟨?_, placeholderBlock_fields, ?_⟩
  · have h := CourseContentAgent.gmcLoop_failed_block oracle num_lessons 1 [] b
      (by omega) (by omega) hfail
    simpa [CourseContentAgent.generate_module_content] using h
  · exact gmc_length_of_sizes oracle num_lessons

theorem mem_mapIdxFn {f : Nat → α → β} :
    ∀ {i : Nat} {l : List α} {b : β}, b ∈ mapIdxFn f i l → ∃ j a, b = f j a := by
  intro i l
  induction l generalizing i with
  | nil => intro b hb; simp [mapIdxFn] at hb
  | cons x xs ih =>
    intro b hb
    simp only [mapIdxFn, List.mem_cons] at hb
    rcases hb with rfl | hb
    · exact ⟨i, x, rfl⟩
    · exact ih hb

theorem strContains_refl (s : String) : strContains s s :=
  ⟨[], [], by simp⟩

theorem data_append_eq (a b : String) : (a ++ b).data = a.data ++ b.data := by
  cases a
  cases b
  rfl

theorem strContains_appendL {a : String} {s : String} (b : String)
    (h : strContains a s) : strContains (a ++ b) s := by
  obtain ⟨pre, post, hp⟩ := h
  exact ⟨pre, post ++ b.data, by simp [data_append_eq, hp]⟩

theorem strContains_appendR {b : String} {s : String} (a : String)
    (h : strContains b s) : strContains (a ++ b) s := by
  obtain ⟨pre, post, hp⟩ := h
  exact ⟨a.data ++ pre, post, by simp [data_append_eq, hp]⟩

theorem strContains_trans {a b c : String} (hab : strContains a b)
    (hbc : strContains b c) : strContains a c := by
  obtain ⟨p, q, hp⟩ := hab
  obtain ⟨r, s, hr⟩ := hbc
  exact ⟨p ++ r, s ++ q, by simp [hp, hr]⟩

theorem strContains_strJoin {parts : List String} {x : String}
    (h : x ∈ parts) : strContains (strJoin parts) x := by
  induction parts with
  | nil => simp at h
  | cons p ps ih =>
    rcases List.mem_cons.mp h with rfl | h
    · exact strContains_appendL _ (strContains_refl x)
    · exact strContains_appendR _ (ih h)

/-- Boolean counterpart of `startsWithB`'s soundness. -/
theorem startsWithB_iff {needle hay : List Char} :
    startsWithB needle hay = true ↔ ∃ post, hay = needle ++ post := by
  induction needle generalizing hay with
  | nil => simp [startsWithB]
  | cons a as ih =>
    cases hay with
    | nil => simp [startsWithB]
    | cons b bs =>
      simp only [startsWithB, Bool.and_eq_true, decide_eq_true_eq, ih,
        List.cons_append, List.cons.injEq]
      constructor
      · rintro ⟨rfl, post, rfl⟩
        exact ⟨post, rfl, rfl⟩
      · rintro ⟨post, rfl, rfl⟩
        exact ⟨rfl, post, rfl⟩

theorem containsSubB_iff {hay needle : List Char} :
    containsSubB hay needle = true ↔ ∃ pre post, hay = pre ++ needle ++ post := by
  induction hay with
  | nil =>
    simp only [containsSubB, List.isEmpty_iff]
    constructor
    · rintro rfl
      exact ⟨[], [], rfl⟩
    · rintro ⟨pre, post, h⟩
      cases pre <;> cases needle <;> simp_all
  | cons c t ih =>
    simp only [containsSubB, Bool.or_eq_true, startsWithB_iff, ih]
    constructor
    · rintro (⟨post, hpost⟩ | ⟨pre, post, rfl⟩)
      · exact ⟨[], post, by simpa using hpost⟩
      · exact ⟨c :: pre, post, rfl⟩
    · rintro ⟨pre, post, h⟩
      cases pre with
      | nil => exact Or.inl ⟨post, by simpa using h⟩
      | cons d ds =>
        simp only [List.cons_append, List.cons.injEq] at h
        exact Or.inr ⟨ds, post, h.2⟩

/-- Decidable form of `strContains`. -/
theorem strContains_iff_contains {big sub : String} :
    strContains big sub ↔ containsSubB big.data sub.data = true := by
  rw [containsSubB_iff]
  exact Iff.rfl

/-! ### Containment helper lemmas for the exporters -/
theorem strContains_joinSepMapNum (i0 : Nat) (sep : String)
    (f : Nat → α → String) {x : α} {s : String}
    (hf : ∀ i, strContains (f i x) s) :
    ∀ {l : List α}, x ∈ l → strContains (joinSepMapNum i0 sep f l) s := by
  suffices hgen : ∀ (l : List α) (j : Nat), x ∈ l →
      strContains (joinSepMapNum j sep f l) s by
    intro l h
    exact hgen l i0 h
  intro l
  induction l with
  | nil => intro j h; simp at h
  | cons p ps ih =>
    intro j h
    cases ps with
    | nil =>
      rcases List.mem_cons.mp h with rfl | h
      · exact hf j
      · simp at h
    | cons q qs =>
      rcases List.mem_cons.mp h with rfl | h
      · exact strContains_appendL _ (strContains_appendL _ (hf j))
      · exact strContains_appendR _ (ih (j + 1) h)

theorem strContains_strJoin_trans {parts : List String} {mid s : String}
    (h : strContains mid s) (hmem : mid ∈ parts) :
    strContains (strJoin parts) s :=
  strContains_trans (strContains_strJoin hmem) h

theorem md_of_header {c : CourseContentD} {s : String}
    (h : strContains (mdHeader c) s) :
    strContains (generate_markdown_course c) s :=
  strContains_appendL _ h

theorem md_of_module {c : CourseContentD} {m : ModuleD} {s : String}
    (hm : m ∈ c.modules) (h : ∀ mi, strContains (mdModule mi m) s) :
    strContains (generate_markdown_course c) s :=
  strContains_appendR _
    (strContains_joinSepMapNum 1 "" (fun mi m => mdModule mi m) h hm)

theorem md_of_lesson {c : CourseContentD} {m : ModuleD} {L : LessonD} {s : String}
    (hm : m ∈ c.modules) (hL : L ∈ m.lessons)
    (h : ∀ mi li, strContains (mdLesson mi li L) s) :
    strContains (generate_markdown_course c) s :=
  md_of_module hm (fun mi => by
    unfold mdModule
    exact strContains_strJoin_trans
      (strContains_joinSepMapNum 1 "" (fun li L => mdLesson mi li L) (h mi) hL)
      (by simp))

theorem html_of_head {c : CourseContentD} {s : String}
    (h : strContains (htmlHead c) s) :
    strContains (generate_html_course c) s :=
  strContains_appendL _ (strContains_appendL _ h)

theorem html_of_module {c : CourseContentD} {m : ModuleD} {s : String}
    (hm : m ∈ c.modules) (h : ∀ mi, strContains (htmlModule mi m) s) :
    strContains (generate_html_course c) s :=
  strContains_appendL _
    (strContains_appendR _
      (strContains_joinSepMapNum 1 "" (fun mi m => htmlModule mi m) h hm))

theorem html_of_lesson {c : CourseContentD} {m : ModuleD} {L : LessonD} {s : String}
    (hm : m ∈ c.modules) (hL : L ∈ m.lessons)
    (h : ∀ mi li, strContains (htmlLesson mi li L) s) :
    strContains (generate_html_course c) s :=
  html_of_module hm (fun mi => by
    unfold htmlModule
    exact strContains_strJoin_trans
      (strContains_joinSepMapNum 1 "" (fun li L => htmlLesson mi li L) (h mi) hL)
      (by simp))

/-- C3 counterexample: the HTML export renders the difficulty through
`str.title()` (source line 162), so for a course whose
`difficulty_level` is `"beginner"` the HTML output contains
`"Beginner"` but not the field's textual value `"beginner"` — the
claimed every-field containment fails for the HTML export. -/
theorem claim_C3_counterexample :
    plainCourse.difficulty_level = "beginner" ∧
    ¬ strContains (generate_html_course plainCourse) "beginner" ∧
    strContains (generate_html_course plainCourse) (pyTitle "beginner") := by
  refine ⟨rfl, ?_, ?_⟩
  · rw [strContains_iff_contains]
    decide
  · rw [strContains_iff_contains]
    decide

/-- C3 (amended): the Markdown export contains the textual value of
every field of the course record; the HTML export contains the textual
value of every field except `difficulty_level`, which it contains
title-cased (`str.title()`) instead. -/
theorem claim_C3_amended (c : CourseContentD) :
    (strContains (generate_markdown_course c) c.title ∧
     strContains (generate_markdown_course c) c.description ∧
     strContains (generate_markdown_course c) c.target_audience ∧
     strContains (generate_markdown_course c) c.difficulty_level ∧
     strContains (generate_markdown_course c) (toString c.duration_weeks) ∧
     (∀ p ∈ c.prerequisites, strContains (generate_markdown_course c) p) ∧
     (∀ o ∈ c.learning_outcomes, strContains (generate_markdown_course c) o) ∧
     (∀ m ∈ c.modules,
       strContains (generate_markdown_course c) m.title ∧
       strContains (generate_markdown_course c) m.description ∧
       strContains (generate_markdown_course c) (showTenths m.duration_hours) ∧
       (∀ L ∈ m.lessons,
         strContains (generate_markdown_course c) L.title ∧
         strContains (generate_markdown_course c) (toString L.duration_minutes) ∧
         (∀ o ∈ L.learning_objectives, strContains (generate_markdown_course c) o) ∧
         strContains (generate_markdown_course c) L.content ∧
         (∀ p ∈ L.key_points, strContains (generate_markdown_course c) p) ∧
         (∀ a ∈ L.activities, strContains (generate_markdown_course c) a) ∧
         (∀ q ∈ L.assessment_questions,
           strContains (generate_markdown_course c) q.question ∧
           strContains (generate_markdown_course c) q.answer)))) ∧
    (strContains (generate_html_course c) c.title ∧
     strContains (generate_html_course c) c.description ∧
     strContains (generate_html_course c) c.target_audience ∧
     strContains (generate_html_course c) (pyTitle c.difficulty_level) ∧
     strContains (generate_html_course c) (toString c.duration_weeks) ∧
     (∀ p ∈ c.prerequisites, strContains (generate_html_course c) p) ∧
     (∀ o ∈ c.learning_outcomes, strContains (generate_html_course c) o) ∧
     (∀ m ∈ c.modules,
       strContains (generate_html_course c) m.title ∧
       strContains (generate_html_course c) m.description ∧
       strContains (generate_html_course c) (showTenths m.duration_hours) ∧
       (∀ L ∈ m.lessons,
         strContains (generate_html_course c) L.title ∧
         strContains (generate_html_course c) (toString L.duration_minutes) ∧
         (∀ o ∈ L.learning_objectives, strContains (generate_html_course c) o) ∧
         strContains (generate_html_course c) L.content ∧
         (∀ p ∈ L.key_points, strContains (generate_html_course c) p) ∧
         (∀ a ∈ L.activities, strContains (generate_html_course c) a) ∧
         (∀ q ∈ L.assessment_questions,
           strContains (generate_html_course c) q.question ∧
           strContains (generate_html_course c) q.answer)))) := by
  constructor
  · refine ⟨?_, ?_, ?_, ?_, ?_, ?_, ?_, ?_⟩
    · exact md_of_header (by unfold mdHeader; exact strContains_strJoin (by simp))
    · exact md_of_header (by unfold mdHeader; exact strContains_strJoin (by simp))
    · exact md_of_header (by unfold mdHeader; exact strContains_strJoin (by simp))
    · exact md_of_header (by unfold mdHeader; exact strContains_strJoin (by simp))
    · exact md_of_header (by unfold mdHeader; exact strContains_strJoin (by simp))
    · intro p hp
      refine md_of_header ?_
      unfold mdHeader
      exact strContains_strJoin_trans
        (strContains_joinSepMapNum 1 "\n" (fun _ p => "- " ++ p)
          (fun _ => strContains_appendR _ (strContains_refl p)) hp)
        (by simp)
    · intro o ho
      refine md_of_header ?_
      unfold mdHeader
      exact strContains_strJoin_trans
        (strContains_joinSepMapNum 1 "\n" (fun _ o => "- " ++ o)
          (fun _ => strContains_appendR _ (strContains_refl o)) ho)
        (by simp)
    · intro m hm
      refine ⟨?_, ?_, ?_, ?_⟩
      · exact md_of_module hm (fun mi => by
          unfold mdModule; exact strContains_strJoin (by simp))
      · exact md_of_module hm (fun mi => by
          unfold mdModule; exact strContains_strJoin (by simp))
      · exact md_of_module hm (fun mi => by
          unfold mdModule; exact strContains_strJoin (by simp))
      · intro L hL
        refine ⟨?_, ?_, ?_, ?_, ?_, ?_, ?_⟩
        · exact md_of_lesson hm hL (fun mi li => by
            unfold mdLesson; exact strContains_strJoin (by simp))
        · exact md_of_lesson hm hL (fun mi li => by
            unfold mdLesson; exact strContains_strJoin (by simp))
        · intro o ho
          refine md_of_lesson hm hL (fun mi li => ?_)
          unfold mdLesson
          exact strContains_strJoin_trans
            (strContains_joinSepMapNum 1 "\n" (fun _ o => "- " ++ o)
              (fun _ => strContains_appendR _ (strContains_refl o)) ho)
            (by simp)
        · exact md_of_lesson hm hL (fun mi li => by
            unfold mdLesson; exact strContains_strJoin (by simp))
        · intro p hp
          refine md_of_lesson hm hL (fun mi li => ?_)
          unfold mdLesson
          exact strContains_strJoin_trans
            (strContains_joinSepMapNum 1 "\n" (fun _ p => "- " ++ p)
              (fun _ => strContains_appendR _ (strContains_refl p)) hp)
            (by simp)
        · intro a ha
          refine md_of_lesson hm hL (fun mi li => ?_)
          unfold mdLesson
          exact strContains_strJoin_trans
            (strContains_joinSepMapNum 1 "\n"
              (fun i a => toString i ++ ". " ++ a)
              (fun _ => strContains_appendR _ (strContains_refl a)) ha)
            (by simp)
        · intro q hq
          constructor
          · refine md_of_lesson hm hL (fun mi li => ?_)
            unfold mdLesson
            exact strContains_strJoin_trans
              (strContains_joinSepMapNum 1 "\n"
                (fun i q => toString i ++ ". **Q:** " ++ q.question ++
                  "\n   **A:** " ++ q.answer)
                (fun _ => strContains_appendL _ (strContains_appendL _
                  (strContains_appendR _ (strContains_refl q.question)))) hq)
              (by simp)
          · refine md_of_lesson hm hL (fun mi li => ?_)
            unfold mdLesson
            exact strContains_strJoin_trans
              (strContains_joinSepMapNum 1 "\n"
                (fun i q => toString i ++ ". **Q:** " ++ q.question ++
                  "\n   **A:** " ++ q.answer)
                (fun _ => strContains_appendR _ (strContains_refl q.answer)) hq)
              (by simp)
  · refine ⟨?_, ?_, ?_, ?_, ?_, ?_, ?_, ?_⟩
    · exact html_of_head (by unfold htmlHead; exact strContains_strJoin (by simp))
    · exact html_of_head (by unfold htmlHead; exact strContains_strJoin (by simp))
    · exact html_of_head (by unfold htmlHead; exact strContains_strJoin (by simp))
    · exact html_of_head (by unfold htmlHead; exact strContains_strJoin (by simp))
    · exact html_of_head (by unfold htmlHead; exact strContains_strJoin (by simp))
    · intro p hp
      refine html_of_head ?_
      unfold htmlHead
      exact strContains_strJoin_trans
        (strContains_joinSepMapNum 1 "" (fun _ p => "<li>" ++ p ++ "</li>")
          (fun _ => strContains_appendL _
            (strContains_appendR _ (strContains_refl p))) hp)
        (by simp)
    · intro o ho
      refine html_of_head ?_
      unfold htmlHead
      exact strContains_strJoin_trans
        (strContains_joinSepMapNum 1 "" (fun _ o => "<li>" ++ o ++ "</li>")
          (fun _ => strContains_appendL _
            (strContains_appendR _ (strContains_refl o))) ho)
        (by simp)
    · intro m hm
      refine ⟨?_, ?_, ?_, ?_⟩
      · exact html_of_module hm (fun mi => by
          unfold htmlModule; exact strContains_strJoin (by simp))
      · exact html_of_module hm (fun mi => by
          unfold htmlModule; exact strContains_strJoin (by simp))
      · exact html_of_module hm (fun mi => by
          unfold htmlModule; exact strContains_strJoin (by simp))
      · intro L hL
        refine ⟨?_, ?_, ?_, ?_, ?_, ?_, ?_⟩
        · exact html_of_lesson hm hL (fun mi li => by
            unfold htmlLesson; exact strContains_strJoin (by simp))
        · exact html_of_lesson hm hL (fun mi li => by
            unfold htmlLesson; exact strContains_strJoin (by simp))
        · intro o ho
          refine html_of_lesson hm hL (fun mi li => ?_)
          unfold htmlLesson
          exact strContains_strJoin_trans
            (strContains_joinSepMapNum 1 "" (fun _ o => "<li>" ++ o ++ "</li>")
              (fun _ => strContains_appendL _
                (strContains_appendR _ (strContains_refl o))) ho)
            (by simp)
        · exact html_of_lesson hm hL (fun mi li => by
            unfold htmlLesson; exact strContains_strJoin (by simp))
        · intro p hp
          refine html_of_lesson hm hL (fun mi li => ?_)
          unfold htmlLesson
          exact strContains_strJoin_trans
            (strContains_joinSepMapNum 1 "" (fun _ p => "<li>" ++ p ++ "</li>")
              (fun _ => strContains_appendL _
                (strContains_appendR _ (strContains_refl p))) hp)
            (by simp)
        · intro a ha
          refine html_of_lesson hm hL (fun mi li => ?_)
          unfold htmlLesson
          exact strContains_strJoin_trans
            (strContains_joinSepMapNum 1 "" (fun _ a => "<li>" ++ a ++ "</li>")
              (fun _ => strContains_appendL _
                (strContains_appendR _ (strContains_refl a))) ha)
            (by simp)
        · intro q hq
          constructor
          · refine html_of_lesson hm hL (fun mi li => ?_)
            unfold htmlLesson
            exact strContains_strJoin_trans
              (strContains_joinSepMapNum 1 ""
                (fun i q => "<p><strong>Q" ++ toString i ++ ":</strong> " ++
                  q.question ++ "<br><strong>A:</strong> " ++ q.answer ++ "</p>")
                (fun _ => strContains_appendL _ (strContains_appendL _
                  (strContains_appendL _ (strContains_appendR _
                    (strContains_refl q.question))))) hq)
              (by simp)
          · refine html_of_lesson hm hL (fun mi li => ?_)
            unfold htmlLesson
            exact strContains_strJoin_trans
              (strContains_joinSepMapNum 1 ""
                (fun i q => "<p><strong>Q" ++ toString i ++ ":</strong> " ++
                  q.question ++ "<br><strong>A:</strong> " ++ q.answer ++ "</p>")
                (fun _ => strContains_appendL _ (strContains_appendR _
                  (strContains_refl q.answer))) hq)
              (by simp)

/-- C3 witness: the amended theorem applied at a concrete course, with
the prerequisite, module and lesson membership hypotheses discharged. -/
theorem claim_C3_witness :
    strContains (generate_markdown_course witnessCourse) "An oven" ∧
    strContains (generate_markdown_course witnessCourse) "Kneading" ∧
    strContains (generate_html_course witnessCourse) (pyTitle "beginner") ∧
    strContains (generate_html_course witnessCourse) "Why rest?" :=
  ⟨(claim_C3_amended witnessCourse).1.2.2.2.2.2.1 "An oven" (by decide),
   ((claim_C3_amended witnessCourse).1.2.2.2.2.2.2.2 witnessModule
      (List.mem_singleton.mpr rfl)).2.2.2 witnessLesson
      (List.mem_singleton.mpr rfl) |>.1,
   (claim_C3_amended witnessCourse).2.2.2.2.1,
   (((claim_C3_amended witnessCourse).2.2.2.2.2.2.2.2 witnessModule
      (List.mem_singleton.mpr rfl)).2.2.2 witnessLesson
      (List.mem_singleton.mpr rfl)).2.2.2.2.2.2 ⟨"Why rest?", "Gluten relaxes"⟩
      (List.mem_singleton.mpr rfl) |>.1⟩

/-! ### Calendar lemmas -/
theorem dch_digit (k : Nat) : isDigitB (dch k) = true := by
  unfold dch
  split_ifs <;> decide

theorem dash_not_digit : isDigitB '-' = false := by decide

theorem dch_val {k : Nat} (h : k < 10) : (dch k).toNat - 48 = k := by
  interval_cases k <;> decide

theorem one_le_daysInMonth (y m : Nat) : 1 ≤ daysInMonth y m := by
  unfold daysInMonth
  split_ifs <;> omega

theorem daysInMonth_le (y m : Nat) : daysInMonth y m ≤ 31 := by
  unfold daysInMonth
  split_ifs <;> omega

theorem parseYmd_formatYmd {e : Date} (hv : validDateB e = true) :
    parseYmd (formatYmd e) = some e := by
  obtain ⟨y, m, d⟩ := e
  simp only [validDateB, Bool.and_eq_true, decide_eq_true_eq] at hv
  obtain ⟨⟨⟨⟨⟨h1, h2⟩, h3⟩, h4⟩, h5⟩, h6⟩ := hv
  unfold parseYmd formatYmd
  simp only [List.takeWhile_cons, List.dropWhile_cons, dch_digit, dash_not_digit,
    List.takeWhile_nil, List.dropWhile_nil, if_true, if_false, Bool.false_eq_true,
    ite_true, ite_false]
  simp only [List.length_cons, List.length_nil]
  norm_num
  have hm10 : ∀ k : Nat, k % 10 < 10 := fun k => Nat.mod_lt _ (by omega)
  have hy4 : digitsToNat [dch (y / 1000 % 10), dch (y / 100 % 10),
      dch (y / 10 % 10), dch (y % 10)] = y := by
    simp [digitsToNat, dch_val (hm10 _)]
    omega
  have hm2 : digitsToNat [dch (m / 10 % 10), dch (m % 10)] = m := by
    simp [digitsToNat, dch_val (hm10 _)]
    omega
  have h31 := daysInMonth_le y m
  have hd2 : digitsToNat [dch (d / 10 % 10), dch (d % 10)] = d := by
    simp [digitsToNat, dch_val (hm10 _)]
    omega
  rw [hy4, hm2, hd2]
  simp [h1, h3, h4, h5, h6]

theorem nextDay_valid {d : Date} (hv : validDateB d = true)
    (hy : (nextDay d).year ≤ 9999) : validDateB (nextDay d) = true := by
  obtain ⟨y, m, dd⟩ := d
  simp only [validDateB, Bool.and_eq_true, decide_eq_true_eq] at hv
  obtain ⟨⟨⟨⟨⟨h1, h2⟩, h3⟩, h4⟩, h5⟩, h6⟩ := hv
  by_cases ha : dd < daysInMonth y m
  · have hnd : nextDay ⟨y, m, dd⟩ = ⟨y, m, dd + 1⟩ := by simp [nextDay, ha]
    rw [hnd] at hy ⊢
    simp only [validDateB, Bool.and_eq_true, decide_eq_true_eq]
    exact ⟨⟨⟨⟨⟨h1, h2⟩, h3⟩, h4⟩, by omega⟩, by omega⟩
  · by_cases hb : m < 12
    · have hnd : nextDay ⟨y, m, dd⟩ = ⟨y, m + 1, 1⟩ := by simp [nextDay, ha, hb]
      rw [hnd] at hy ⊢
      simp only [validDateB, Bool.and_eq_true, decide_eq_true_eq]
      exact ⟨⟨⟨⟨⟨h1, h2⟩, by omega⟩, by omega⟩, by omega⟩,
        one_le_daysInMonth y (m + 1)⟩
    · have hnd : nextDay ⟨y, m, dd⟩ = ⟨y + 1, 1, 1⟩ := by simp [nextDay, ha, hb]
      rw [hnd] at hy ⊢
      simp only [validDateB, Bool.and_eq_true, decide_eq_true_eq]
      exact ⟨⟨⟨⟨⟨by omega, by exact hy⟩, by omega⟩, by omega⟩, by omega⟩,
        one_le_daysInMonth (y + 1) 1⟩

theorem addDaysPy_valid :
    ∀ (n : Nat) {d e : Date}, validDateB d = true →
      addDaysPy n d = some e → validDateB e = true := by
  intro n
  induction n with
  | zero =>
    intro d e hv h
    simp only [addDaysPy, Option.some.injEq] at h
    exact h ▸ hv
  | succ n ih =>
    intro d e hv h
    simp only [addDaysPy] at h
    split at h
    · exact ih (nextDay_valid hv (by assumption)) h
    · cases h

theorem digits_foldl_lt :
    ∀ (l : List Char) (a : Nat), (∀ c ∈ l, isDigitB c = true) →
      l.foldl (fun n c => n * 10 + (c.toNat - 48)) a < (a + 1) * 10 ^ l.length := by
  intro l
  induction l with
  | nil => intro a _; simp
  | cons c cs ih =>
    intro a h
    have hc : isDigitB c = true := h c (List.mem_cons_self c cs)
    have hv : c.toNat - 48 ≤ 9 := by
      simp only [isDigitB, Bool.and_eq_true, decide_eq_true_eq] at hc
      omega
    calc (c :: cs).foldl (fun n c => n * 10 + (c.toNat - 48)) a
        = cs.foldl (fun n c => n * 10 + (c.toNat - 48)) (a * 10 + (c.toNat - 48)) := rfl
      _ < (a * 10 + (c.toNat - 48) + 1) * 10 ^ cs.length :=
          ih _ (fun x hx => h x (List.mem_cons_of_mem c hx))
      _ ≤ ((a + 1) * 10) * 10 ^ cs.length :=
          Nat.mul_le_mul_right _ (by omega)
      _ = (a + 1) * 10 ^ (c :: cs).length := by
          simp [List.length_cons, pow_succ]
          ring

theorem digitsToNat_lt {l : List Char} (h : ∀ c ∈ l, isDigitB c = true) :
    digitsToNat l < 10 ^ l.length := by
  have := digits_foldl_lt l 0 h
  simpa [digitsToNat] using this

theorem parseYmd_valid {s : String} {d : Date}
    (h : parseYmd s = some d) : validDateB d = true := by
  simp only [parseYmd] at h
  split at h
  · rename_i hlen4
    split at h
    · rename_i r2 hr1
      split at h
      · rename_i hmdlen
        split at h
        · rename_i r4 hr3
          split at h
          · rename_i hddlen
            split at h
            · rename_i hck
              simp only [Option.some.injEq] at h
              subst h
              have hydig : ∀ c ∈ s.data.takeWhile isDigitB, isDigitB c = true :=
                fun c hc => List.mem_takeWhile_imp hc
              have hybound := digitsToNat_lt hydig
              rw [hlen4] at hybound
              have hpow : (10 : Nat) ^ 4 = 10000 := by norm_num
              rw [hpow] at hybound
              simp only [validDateB, Bool.and_eq_true, decide_eq_true_eq]
              refine ⟨⟨⟨⟨⟨hck.1, by omega⟩, hck.2.1⟩, hck.2.2.1⟩, hck.2.2.2.1⟩,
                hck.2.2.2.2⟩
            · cases h
          · cases h
        · cases h
      · cases h
    · cases h
  · cases h

/-! ## Claim C9 about the roadmap end date -/
/-- C9 counterexample: `"9999-12-31"` is a parseable YYYY-MM-DD start
date, yet the roadmap's end date is `None`: the date addition overflows
`datetime`'s year-9999 bound, the resulting exception is swallowed by
the handler's bare `except`, and `calculated_end_date` keeps its `None`
initialisation. -/
theorem claim_C9_counterexample :
    parseYmd "9999-12-31" = some ⟨9999, 12, 31⟩ ∧
    (generate_roadmap_from_modules "Topic" [] 1 "beginner" 5
        (some "9999-12-31") ⟨[], [], [], ""⟩).end_date = none :=
  ⟨by decide, by decide⟩

/-- C9 (amended): the roadmap's `end_date` is the start date plus
`7 * duration_weeks` calendar days formatted `YYYY-MM-DD` whenever the
start date is present, parses in that format, and the sum stays within
`datetime`'s year range; it is `None` when the start date is absent,
unparseable, or the addition overflows past year 9999.  The formatted
end date is itself a valid `YYYY-MM-DD` string: parsing it returns
exactly the computed end date. -/
theorem claim_C9_amended (course_title : String) (modules : List ModuleD)
    (duration_weeks : Nat) (difficulty : String) (hours_per_week : ℚ)
    (start_date : Option String) (llm : RoadmapLLM) :
    (start_date = none →
      (generate_roadmap_from_modules course_title modules duration_weeks
        difficulty hours_per_week start_date llm).end_date = none) ∧
    (∀ s, start_date = some s → parseYmd s = none →
      (generate_roadmap_from_modules course_title modules duration_weeks
        difficulty hours_per_week start_date llm).end_date = none) ∧
    (∀ s d, start_date = some s → parseYmd s = some d →
      addDaysPy (7 * duration_weeks) d = none →
      (generate_roadmap_from_modules course_title modules duration_weeks
        difficulty hours_per_week start_date llm).end_date = none) ∧
    (∀ s d e, start_date = some s → parseYmd s = some d →
      addDaysPy (7 * duration_weeks) d = some e →
      (generate_roadmap_from_modules course_title modules duration_weeks
          difficulty hours_per_week start_date llm).end_date
        = some (formatYmd e) ∧
      validDateB e = true ∧ parseYmd (formatYmd e) = some e) := by
  refine ⟨?_, ?_, ?_, ?_⟩
  · rintro rfl
    rfl
  · rintro s rfl hp
    simp [generate_roadmap_from_modules, calculatedEndDate, hp]
  · rintro s d rfl hp ha
    simp [generate_roadmap_from_modules, calculatedEndDate, hp, ha]
  · rintro s d e rfl hp ha
    have hvd := parseYmd_valid hp
    have hve := addDaysPy_valid _ hvd ha
    exact ⟨by simp [generate_roadmap_from_modules, calculatedEndDate, hp, ha],
      hve, parseYmd_formatYmd hve⟩

/-- C9 witness: starting 2026-01-01 with two weeks, the end date is
2026-01-15, well-formed and parsing back to itself. -/
theorem claim_C9_witness :
    (generate_roadmap_from_modules "Topic" [] 2 "beginner" 5
        (some "2026-01-01") ⟨[], [], [], ""⟩).end_date
      = some (formatYmd ⟨2026, 1, 15⟩) ∧
    validDateB ⟨2026, 1, 15⟩ = true ∧
    parseYmd (formatYmd ⟨2026, 1, 15⟩) = some ⟨2026, 1, 15⟩ :=
  (claim_C9_amended "Topic" [] 2 "beginner" 5 (some "2026-01-01")
      ⟨[], [], [], ""⟩).2.2.2 "2026-01-01" ⟨2026, 1, 1⟩ ⟨2026, 1, 15⟩ rfl
    (by decide) (by decide)

/-- C8 counterexample: course generation writes the module-level
`course_storage` (the storage after the request differs from the empty
storage), and roadmap generation reads it — two identical
`/api/generate-roadmap` requests return different roadmaps depending on
which course a previous request stored.  So generations are not
independent of state left by previous requests. -/
theorem claim_C8_counterexample :
    respTitle (generate_roadmap_route storedA true ⟨[], [], [], ""⟩
        "2026-01-01").2 = some "Python One" ∧
    respTitle (generate_roadmap_route storedB true ⟨[], [], [], ""⟩
        "2026-01-01").2 = some "Python Two" ∧
    (generate_roadmap_route storedA true ⟨[], [], [], ""⟩ "2026-01-01").2
      ≠ (generate_roadmap_route storedB true ⟨[], [], [], ""⟩ "2026-01-01").2 ∧
    storedA ≠ (⟨none, none⟩ : Storage) :=
  ⟨by decide, by decide, by decide, by decide⟩

/-- C8 (amended): the pure agent call chains carry no cross-request
state — the `/api/generate-course` response is independent of the
stored state, and the `/api/generate-roadmap` response depends on the
storage only through `course_storage['course_content']` — but the Flask
layer does share state across requests: each handler writes its own
`course_storage` slot (and only that slot), and the roadmap handler
reads the course stored by a previous request. -/
theorem claim_C8_amended (st st' : Storage) (apiKeyOk : Bool) (prompt : String)
    (outline1 : Outline) (lessonOracle : Nat → Nat → List LessonD)
    (llm : RoadmapLLM) (now : String) :
    (generate_course_route st apiKeyOk prompt outline1 lessonOracle).2
      = (generate_course_route st' apiKeyOk prompt outline1 lessonOracle).2 ∧
    (st.course_content = st'.course_content →
      (generate_roadmap_route st apiKeyOk llm now).2
        = (generate_roadmap_route st' apiKeyOk llm now).2) ∧
    (generate_course_route st apiKeyOk prompt outline1 lessonOracle).1.course_roadmap
      = st.course_roadmap ∧
    (generate_roadmap_route st apiKeyOk llm now).1.course_content
      = st.course_content := by
  refine ⟨?_, ?_, ?_, ?_⟩
  · unfold generate_course_route
    split_ifs <;> try rfl
    cases hgen : CourseContentAgentLangChain.generate_complete_course outline1
        lessonOracle ((extract_course_parameters prompt).1.topic.getD "")
        ((extract_course_parameters prompt).1.duration_weeks.getD 4)
        ((extract_course_parameters prompt).1.difficulty.getD "beginner")
        ((extract_course_parameters prompt).1.target_audience.getD "general learners")
        ((extract_course_parameters prompt).1.lessons_per_module.getD 4) none with
    | error e => simp [hgen]
    | ok course => simp [hgen]
  · intro hcc
    unfold generate_roadmap_route
    split_ifs <;> try rfl
    cases hc : st.course_content with
    | none =>
      have hc' : st'.course_content = none := by rw [← hcc, hc]
      simp [hc, hc']
    | some course =>
      have hc' : st'.course_content = some course := by rw [← hcc, hc]
      simp [hc, hc']
  · unfold generate_course_route
    split_ifs <;> try rfl
    cases hgen : CourseContentAgentLangChain.generate_complete_course outline1
        lessonOracle ((extract_course_parameters prompt).1.topic.getD "")
        ((extract_course_parameters prompt).1.duration_weeks.getD 4)
        ((extract_course_parameters prompt).1.difficulty.getD "beginner")
        ((extract_course_parameters prompt).1.target_audience.getD "general learners")
        ((extract_course_parameters prompt).1.lessons_per_module.getD 4) none with
    | error e => simp [hgen]
    | ok course => simp [hgen]
  · unfold generate_roadmap_route
    split_ifs <;> try rfl
    cases hc : st.course_content with
    | none => simp [hc]
    | some course => simp [hc]

/-- C8 witness: two storages that differ only in the stored roadmap
(the state a previous roadmap request left) produce the same roadmap
response — the handler reads only the stored course. -/
theorem claim_C8_witness :
    (generate_roadmap_route ⟨none, none⟩ true ⟨[], [], [], ""⟩ "2026-01-01").2
      = (generate_roadmap_route
          ⟨none, some ⟨"T", 1, none, none, 0, 0, [], [], [], ""⟩⟩ true
          ⟨[], [], [], ""⟩ "2026-01-01").2 :=
  (claim_C8_amended ⟨none, none⟩
      ⟨none, some ⟨"T", 1, none, none, 0, 0, [], [], [], ""⟩⟩ true ""
      ⟨"", "", [], [], []⟩ (fun _ _ => []) ⟨[], [], [], ""⟩ "2026-01-01").2.1 rfl

/-! ## Claims C2 and C7 about `generate_complete_course` -/
/-- C2: in every course either `generate_complete_course` returns,
every module's `duration_hours` equals the sum of its lessons'
`duration_minutes` divided by 60 and rounded to one decimal place
(exact-rational round-half-even model of `round(x, 1)`). -/
theorem claim_C2_duration_hours (outline1 outline2 : Outline)
    (lessonOracle : Nat → Nat → List LessonD) (topic : String)
    (duration_weeks : Nat) (difficulty target_audience : String)
    (lessons_per_module : Nat) (course : CourseContentD) :
    (CourseContentAgent.generate_complete_course outline1 outline2 lessonOracle
        topic duration_weeks difficulty target_audience lessons_per_module
        = .ok course →
      ∀ m ∈ course.modules,
        m.duration_hours = pyRound1 ((sumMinutes m.lessons : ℚ) / 60)) ∧
    (∀ custom_learning_outcomes,
      CourseContentAgentLangChain.generate_complete_course outline1 lessonOracle
          topic duration_weeks difficulty target_audience lessons_per_module
          custom_learning_outcomes
        = .ok course →
      ∀ m ∈ course.modules,
        m.duration_hours = pyRound1 ((sumMinutes m.lessons : ℚ) / 60)) := by
  constructor
  · intro h m hm
    unfold CourseContentAgent.generate_complete_course at h
    split at h
    · cases h
    · cases h
      simp only [assembleCourse] at hm
      obtain ⟨j, a, rfl⟩ := mem_mapIdxFn hm
      rfl
  · intro custom h m hm
    unfold CourseContentAgentLangChain.generate_complete_course at h
    split at h
    · cases h
    · cases h
      simp only [assembleCourse] at hm
      obtain ⟨j, a, rfl⟩ := mem_mapIdxFn hm
      rfl

/-- C2 witness: a concrete one-module course whose single batch fails
(so the module holds the one 45-minute placeholder lesson); the
invariant holds of the returned module. -/
theorem claim_C2_witness :
    ∃ course,
      CourseContentAgent.generate_complete_course
        ⟨"Mathematics 101", "d", [], [], [⟨"M1", "D1"⟩]⟩
        ⟨"other", "d", [], [], []⟩
        (fun _ _ => []) "mathematics" 4 "beginner" "everyone" 1 = .ok course ∧
      ∀ m ∈ course.modules,
        m.duration_hours = pyRound1 ((sumMinutes m.lessons : ℚ) / 60) :=
  ⟨_, rfl,
   (claim_C2_duration_hours
      ⟨"Mathematics 101", "d", [], [], [⟨"M1", "D1"⟩]⟩
      ⟨"other", "d", [], [], []⟩
      (fun _ _ => []) "mathematics" 4 "beginner" "everyone" 1 _).1 rfl⟩

/-- C7 counterexample: the LangChain `generate_complete_course` (cited
by the claim) performs no outline re-request on a topic mismatch — its
outline-call count stays 1, and instead the returned course's title is
overwritten with `"{topic} - {Difficulty} Course"`.  So the claim's
"re-requested with a stricter prompt exactly once" fails for one of the
two cited implementations. -/
theorem claim_C7_counterexample :
    topicMatchB "quantum computing" bakingOutline.title = false ∧
    CourseContentAgentLangChain.outlineRequestCount bakingOutline "quantum computing" = 1 ∧
    (CourseContentAgentLangChain.generate_complete_course bakingOutline
        (fun _ _ => []) "quantum computing" 4 "beginner" "everyone" 1
        none).toOption.map CourseContentD.title
      = some "quantum computing - Beginner Course" ∧
    (1 : Nat) ≠ 2 :=
  ⟨by decide, rfl, by decide, by decide⟩

/-- C7 (amended): in `course_agent.py` the outline is re-requested with
the stricter prompt exactly once when the topic heuristic rejects the
first title (two outline calls, the retry outline is used), and not at
all otherwise (one call, first outline kept); in
`course_agent_langchain.py` there is never a re-request (always one
outline call) — a heuristic miss instead overwrites the title with
`"{topic} - {difficulty.capitalize()} Course"` and otherwise the first
outline is kept unchanged. -/
theorem claim_C7_amended (outline1 outline2 : Outline) (topic difficulty : String) :
    (topicMatchB topic outline1.title = false →
      CourseContentAgent.outlineRequestCount outline1 topic = 2 ∧
      CourseContentAgent.chosenOutline outline1 outline2 topic = outline2) ∧
    (topicMatchB topic outline1.title = true →
      CourseContentAgent.outlineRequestCount outline1 topic = 1 ∧
      CourseContentAgent.chosenOutline outline1 outline2 topic = outline1) ∧
    CourseContentAgentLangChain.outlineRequestCount outline1 topic = 1 ∧
    (topicMatchB topic outline1.title = false →
      CourseContentAgentLangChain.chosenOutline outline1 topic difficulty
        = { outline1 with
            title := topic ++ " - " ++ pyCapitalize difficulty ++ " Course" }) ∧
    (topicMatchB topic outline1.title = true →
      CourseContentAgentLangChain.chosenOutline outline1 topic difficulty
        = outline1) := by
  refine ⟨?_, ?_, rfl, ?_, ?_⟩ <;> intro h <;>
    simp [CourseContentAgent.outlineRequestCount,
      CourseContentAgent.chosenOutline,
      CourseContentAgentLangChain.chosenOutline, h]

/-- C7 witness: at a mismatching concrete outline the direct agent
re-requests exactly once and uses the retry outline, while the
LangChain agent makes one call and rewrites the title. -/
theorem claim_C7_witness :
    (CourseContentAgent.outlineRequestCount bakingOutline "quantum computing" = 2 ∧
     CourseContentAgent.chosenOutline bakingOutline
         ⟨"Quantum Computing Fundamentals", "d", [], [], [⟨"M1", "D1"⟩]⟩
         "quantum computing"
       = ⟨"Quantum Computing Fundamentals", "d", [], [], [⟨"M1", "D1"⟩]⟩) ∧
    CourseContentAgentLangChain.chosenOutline bakingOutline
        "quantum computing" "beginner"
      = { bakingOutline with title := "quantum computing - Beginner Course" } :=
  ⟨(claim_C7_amended bakingOutline
      ⟨"Quantum Computing Fundamentals", "d", [], [], [⟨"M1", "D1"⟩]⟩
      "quantum computing" "beginner").1 (by decide),
   by
    have h := (claim_C7_amended bakingOutline
      ⟨"Quantum Computing Fundamentals", "d", [], [], [⟨"M1", "D1"⟩]⟩
      "quantum computing" "beginner").2.2.2.1 (by decide)
    rw [h]
    decide⟩

/-- C6 witness: four lessons requested, first batch fails; the theorem
applies and in particular the total count is still four when the second
batch returns its two requested lessons. -/
theorem claim_C6_witness :
    (∃ pre suf,
      CourseContentAgent.generate_module_content
        (fun b => if b = 2 then [placeholderLesson 9, placeholderLesson 10] else [])
        4 = pre ++ placeholderBlock pre.length (min 2 (4 - 2 * (1 - 1))) ++ suf) ∧
    (CourseContentAgent.generate_module_content
       (fun b => if b = 2 then [placeholderLesson 9, placeholderLesson 10] else [])
       4).length = 4 :=
  ⟨(claim_C6_failed_batch
      (fun b => if b = 2 then [placeholderLesson 9, placeholderLesson 10] else [])
      4 1 (by decide) (by decide) (by decide)).1,
   (claim_C6_failed_batch
      (fun b => if b = 2 then [placeholderLesson 9, placeholderLesson 10] else [])
      4 1 (by decide) (by decide) (by decide)).2.2
     (by
       intro b hb1 hb2 hne
       have hb3 : b ≤ 2 := by omega
       interval_cases b
       · exact absurd rfl hne
       · decide)⟩

end FoW2026
